import Mathlib

/-!
Verification development for the IP-resolution core of the repository
(`apis/ip/core.py`).  The Python functions are shallowly embedded as Lean
definitions over a model of Python values (`PyVal`) and insertion-ordered
dictionaries (`PyDict`).  External effects (the three MMDB database lookups
and the HTTP fetches of the six remote sources) are passed in explicitly as
parameters, so every definition is executable.  Numeric JSON/MMDB values are
modeled as integers: the code only copies them around, it never computes
with them.
-/

set_option maxHeartbeats 1000000
set_option maxRecDepth 4000

/-- Model of a Python/JSON value as it occurs in `apis/ip/core.py`:
strings, numbers, `None`, lists and string-keyed dicts. -/
inductive PyVal where
  | str : String → PyVal
  | int : Int → PyVal
  | null : PyVal
  | list : List PyVal → PyVal
  | dict : List (String × PyVal) → PyVal
deriving Repr

/-- Insertion-ordered dictionary, as Python dicts: a list of key/value pairs. -/
abbrev PyDict := List (String × PyVal)

/-- Lookup of a key in a dict (Python `d.get(k)` / `d[k]` when present). -/
def dictGet : PyDict → String → Option PyVal
  | [], _ => Option.none
  | (k, v) :: rest, key => if k = key then some v else dictGet rest key

/-- Python `d.get(k, dflt)`. -/
def dictGetD (d : PyDict) (key : String) (dflt : PyVal) : PyVal :=
  (dictGet d key).getD dflt

/-- Python `d[k] = v`: replaces the value in place if the key is present
(keeping its position, as Python dicts do), otherwise appends the pair. -/
def dictSet : PyDict → String → PyVal → PyDict
  | [], key, v => [(key, v)]
  | (k, w) :: rest, key, v =>
      if k = key then (key, v) :: rest else (k, w) :: dictSet rest key v

/-- Python truthiness of a value (`bool(v)`). -/
def pyTruthy : PyVal → Bool
  | .str s => s ≠ ""
  | .int n => n ≠ 0
  | .null => false
  | .list l => !l.isEmpty
  | .dict d => !d.isEmpty

/-- Python membership test `v in (None, "", 0)` used by `_merge_unified`. -/
def isEmptyVal : PyVal → Bool
  | .str s => s = ""
  | .int n => n = 0
  | .null => true
  | .list _ => false
  | .dict _ => false

/-- Python `a or b` on values: the first operand if truthy, else the second. -/
def pyOr (a b : PyVal) : PyVal := if pyTruthy a then a else b

/-- Python `a or b` on `Optional[str]` values (`None` and `""` are falsy). -/
def pyOrOpt (a b : Option String) : Option String :=
  match a with
  | some s => if s ≠ "" then some s else b
  | Option.none => b

/-- One iteration of the loop body of `_merge_unified`:
`if key not in base or base.get(key) in (None, "", 0): base[key] = val`. -/
def mergeStep (b : PyDict) (kv : String × PyVal) : PyDict :=
  match dictGet b kv.1 with
  | Option.none => dictSet b kv.1 kv.2
  | some v => if isEmptyVal v then dictSet b kv.1 kv.2 else b

/-- `_merge_unified(base, inc)` from `apis/ip/core.py`: fields of `inc` are
written into `base` only where `base` is missing the key or holds an
empty value. -/
def merge_unified (base inc : PyDict) : PyDict :=
  if inc.isEmpty then base else inc.foldl mergeStep base

/-- `de_duplicate(regions)` from `apis/ip/core.py`: drop falsy entries, then
keep only the first occurrence of each entry, preserving order.  The code
builds `ret` by appending each element not already present. -/
def de_duplicate (regions : List String) : List String :=
  let regions := regions.filter (fun s => s ≠ "")
  regions.foldl (fun ret i => if i ∈ ret then ret else ret ++ [i]) []

/-- Modelled from the spec's words for `deduplicateOrdered` (§4.3): drop the
falsy/empty entries, then remove exact duplicates keeping the first
occurrence of each element.  Used only to compare against `de_duplicate`. -/
def dedupOrderedSpec : List String → List String
  | [] => []
  | x :: xs => x :: dedupOrderedSpec (xs.filter (fun s => s ≠ x))
termination_by l => l.length
decreasing_by
  simp only [List.length_cons]
  exact Nat.lt_succ_of_le (List.length_filter_le _ _)

-- ------------------------------------------------------------------
-- PrefixCalculator: `get_addr` (ipaddress.ip_network(..., strict=False))
-- ------------------------------------------------------------------

/-- Splitting a character list on a separator character; like Python's
`str.split(sep)`, the result always has one more entry than there are
separators (so the empty input gives one empty segment). -/
def splitOnChar : List Char → Char → List (List Char)
  | [], _ => [[]]
  | c :: rest, sep =>
      let r := splitOnChar rest sep
      if c = sep then [] :: r else (c :: r.headD []) :: r.tail

/-- One dotted-decimal octet, as accepted by Python's `ipaddress` module:
one to three ASCII digits, no leading zero, value at most 255. -/
def parseOctetChars (l : List Char) : Option Nat :=
  if l.isEmpty then Option.none
  else if !(l.all Char.isDigit) then Option.none
  else if l.length > 3 then Option.none
  else if l.length > 1 && l.headD '0' = '0' then Option.none
  else
    let v := l.foldl (fun a c => a * 10 + (c.toNat - 48)) 0
    if v ≤ 255 then some v else Option.none

/-- IPv4 address parser: four octets, returned as the 32-bit value. -/
def parseIPv4 (s : String) : Option Nat :=
  match (splitOnChar s.toList '.').mapM parseOctetChars with
  | some [a, b, c, d] => some (((a * 256 + b) * 256 + c) * 256 + d)
  | _ => Option.none

def isHexChar (c : Char) : Bool :=
  c.isDigit || ('a' ≤ c && c ≤ 'f') || ('A' ≤ c && c ≤ 'F')

def hexVal (c : Char) : Nat :=
  if c.isDigit then c.toNat - 48
  else if 'a' ≤ c && c ≤ 'f' then c.toNat - 87
  else c.toNat - 55

/-- One 16-bit IPv6 group (`_parse_hextet`): one to four hex digits. -/
def parseHexGroupChars (l : List Char) : Option Nat :=
  if l.isEmpty || l.length > 4 || !(l.all isHexChar) then Option.none
  else some (l.foldl (fun acc c => acc * 16 + hexVal c) 0)

def groupsVal (gs : List Nat) : Nat :=
  gs.foldl (fun acc g => acc * 65536 + g) 0

/-- IPv6 address parser, following CPython's `_ip_int_from_string`: split on
colons, locate the at-most-one empty inner segment produced by `::`, check
the group counts, and assemble the 128-bit value.  (The rare trailing
embedded-IPv4 notation is not modeled; that only shrinks the domain of
parseable inputs.) -/
def parseIPv6 (s : String) : Option Nat :=
  let parts := splitOnChar s.toList ':'
  if parts.length < 3 || parts.length > 9 then Option.none
  else
    let inner := (parts.drop 1).take (parts.length - 2)
    let nEmpty := inner.countP (fun p => p.isEmpty)
    if 1 < nEmpty then Option.none
    else if nEmpty = 1 then
      let skip := 1 + inner.findIdx (fun p => p.isEmpty)
      let firstEmpty := (parts.headD ['x']).isEmpty
      let lastEmpty := (parts.getLastD ['x']).isEmpty
      let hi := if firstEmpty then skip - 1 else skip
      let lo0 := parts.length - skip - 1
      let lo := if lastEmpty then lo0 - 1 else lo0
      if firstEmpty && hi ≠ 0 then Option.none
      else if lastEmpty && lo ≠ 0 then Option.none
      else if 7 < hi + lo then Option.none
      else
        match (parts.take hi).mapM parseHexGroupChars,
            (parts.drop (parts.length - lo)).mapM parseHexGroupChars with
        | some a, some b =>
            some (groupsVal (a ++ List.replicate (8 - a.length - b.length) 0 ++ b))
        | _, _ => Option.none
    else
      if parts.length ≠ 8 then Option.none
      else
        match parts.mapM parseHexGroupChars with
        | some gs => some (groupsVal gs)
        | Option.none => Option.none

/-- Address parse following `ipaddress.ip_network`: IPv4 first, then IPv6.
Returns the numeric value together with the address width in bits. -/
def parseIP (s : String) : Option (Nat × Nat) :=
  match parseIPv4 s with
  | some v => some (v, 32)
  | Option.none =>
      match parseIPv6 s with
      | some v => some (v, 128)
      | Option.none => Option.none

def renderIPv4 (n : Nat) : String :=
  toString (n / 16777216 % 256) ++ "." ++ toString (n / 65536 % 256) ++ "." ++
    toString (n / 256 % 256) ++ "." ++ toString (n % 256)

/-- Lowercase hexadecimal rendering without leading zeros. -/
def hexOfNat (n : Nat) : String := String.mk (Nat.toDigits 16 n)

def groupsOfIPv6 (n : Nat) : List Nat :=
  (List.range 8).map (fun i => n / 2 ^ (16 * (7 - i)) % 65536)

/-- Length of the run of zero groups starting at the head. -/
def zeroRunLen : List Nat → Nat
  | 0 :: rest => 1 + zeroRunLen rest
  | _ => 0

/-- Start index and length of the longest run of zero groups (leftmost on
ties), as compressed by Python's `IPv6Address.__str__`. -/
def bestZeroRun : List Nat → Nat → Nat × Nat
  | [], _ => (0, 0)
  | g :: rest, i =>
      let cur := zeroRunLen (g :: rest)
      let best := bestZeroRun rest (i + 1)
      if cur ≥ best.2 then (i, cur) else best

/-- RFC 5952 style rendering used by Python: compress the longest zero run
when it has at least two groups. -/
def renderIPv6 (n : Nat) : String :=
  let gs := groupsOfIPv6 n
  let best := bestZeroRun gs 0
  if best.2 < 2 then String.intercalate ":" (gs.map hexOfNat)
  else
    String.intercalate ":" ((gs.take best.1).map hexOfNat) ++ "::" ++
      String.intercalate ":" ((gs.drop (best.1 + best.2)).map hexOfNat)

def renderIP (bits n : Nat) : String :=
  if bits = 32 then renderIPv4 n else renderIPv6 n

/-- Clearing the host bits: the network address of `v` under a mask leaving
`hostBits` free low bits. -/
def netAddr (v hostBits : Nat) : Nat := v / 2 ^ hostBits * 2 ^ hostBits

/-- `get_addr(ip, mask)` from `apis/ip/core.py`: build
`ipaddress.ip_network(f"{ip}/{mask}", strict=False)` and render
`f"{network.network_address}/{mask}"`.  A malformed address or an
out-of-range mask raises (modeled as `Except.error`). -/
def get_addr (ip : String) (mask : Nat) : Except Unit String :=
  match parseIP ip with
  | some (v, bits) =>
      if mask ≤ bits then
        Except.ok (renderIP bits (netAddr v (bits - mask)) ++ "/" ++ toString mask)
      else Except.error ()
  | Option.none => Except.error ()


-- ------------------------------------------------------------------
-- OperatorResolver: `asn_map`, `get_as_info`, `derive_isp_from_org`
-- ------------------------------------------------------------------

/-- The static ASN → operator-label table of `apis/ip/core.py`, in source
order. -/
def asn_map : List (Int × String) := [
  (9812, "东方有线"), (9389, "中国长城"), (17962, "天威视讯"),
  (17429, "歌华有线"), (7497, "科技网"), (24139, "华数"), (9801, "中关村"),
  (4538, "教育网"), (24151, "CNNIC"),
  (38019, "中国移动"), (139080, "中国移动"), (9808, "中国移动"),
  (24400, "中国移动"), (134810, "中国移动"), (24547, "中国移动"),
  (56040, "中国移动"), (56041, "中国移动"), (56042, "中国移动"),
  (56044, "中国移动"), (132525, "中国移动"), (56046, "中国移动"),
  (56047, "中国移动"), (56048, "中国移动"), (59257, "中国移动"),
  (24444, "中国移动"), (24445, "中国移动"), (137872, "中国移动"),
  (9231, "中国移动"), (58453, "中国移动"), (4134, "中国电信"),
  (4812, "中国电信"), (23724, "中国电信"), (136188, "中国电信"),
  (137693, "中国电信"), (17638, "中国电信"), (140553, "中国电信"),
  (4847, "中国电信"), (140061, "中国电信"), (136195, "中国电信"),
  (17799, "中国电信"), (139018, "中国电信"), (134764, "中国电信"),
  (4837, "中国联通"), (4808, "中国联通"), (134542, "中国联通"),
  (134543, "中国联通"), (59019, "金山云"), (135377, "优刻云"),
  (45062, "网易云"), (37963, "阿里云"), (45102, "阿里云国际"),
  (45090, "腾讯云"), (132203, "腾讯云国际"), (55967, "百度云"),
  (38365, "百度云"), (58519, "华为云"), (55990, "华为云"),
  (136907, "华为云"), (4609, "澳門電訊"), (13335, "Cloudflare"),
  (55960, "亚马逊云"), (14618, "亚马逊云"), (16509, "亚马逊云"),
  (15169, "谷歌云"), (396982, "谷歌云"), (36492, "谷歌云"),
  (137718, "火山引擎")]

/-- `get_as_info(number)`: exact lookup in the static table. -/
def get_as_info (number : Int) : Option String := asn_map.lookup number

def listIsPrefix : List Char → List Char → Bool
  | [], _ => true
  | _ :: _, [] => false
  | a :: as, b :: bs => a = b && listIsPrefix as bs

def listContainsSub (nee : List Char) : List Char → Bool
  | [] => listIsPrefix nee []
  | c :: t => listIsPrefix nee (c :: t) || listContainsSub nee t

/-- Python's substring test `nee in hay` on strings. -/
def strContainsSub (hay nee : String) : Bool :=
  listContainsSub nee.toList hay.toList

/-- Python `s.lower()` (character-wise, which covers the ASCII keywords the
heuristics compare against). -/
def strLower (s : String) : String := String.mk (s.toList.map Char.toLower)

/-- `derive_isp_from_org(org_name)`: case-insensitive keyword heuristics on
the AS organization name, in the source's priority order. -/
def derive_isp_from_org (org_name : String) : Option String :=
  if org_name = "" then Option.none
  else
    let name := strLower org_name
    if strContainsSub name "volcano" || strContainsSub name "byte" then
      some "火山引擎"
    else if strContainsSub name "alibaba" || strContainsSub name "aliyun" ||
        strContainsSub name "alicloud" then some "阿里云"
    else if strContainsSub name "tencent" || strContainsSub name "qcloud" then
      some "腾讯云"
    else if strContainsSub name "huawei" then some "华为云"
    else if strContainsSub name "baidu" then some "百度云"
    else if strContainsSub name "amazon" || strContainsSub name "aws" then
      some "亚马逊云"
    else if strContainsSub name "google" || strContainsSub name "gcp" then
      some "谷歌云"
    else if strContainsSub name "cloudflare" then some "Cloudflare"
    else Option.none

-- ------------------------------------------------------------------
-- RegionNormalizer: `get_des`, `get_country`
-- ------------------------------------------------------------------

/-- The language-preference constant `lang` of the source. -/
def lang : List String := ["zh-CN", "en"]

/-- An MMDB sub-record carrying a multi-language `names` map. -/
structure NamedRec where
  names : List (String × String)

/-- `get_des(d)`: the first preferred language's name if present, otherwise
the English name, otherwise the empty string. -/
def get_des (d : NamedRec) : String :=
  match lang.find? (fun i => (d.names.lookup i).isSome) with
  | some i => (d.names.lookup i).getD ""
  | Option.none => (d.names.lookup "en").getD ""

/-- `get_country(d)`: localized country name with the special-region
prefixing rule. -/
def get_country (d : NamedRec) : String :=
  let country_name := get_des d
  if country_name ∈ ["香港", "澳门", "台湾"] then "中国" ++ country_name
  else country_name

-- ------------------------------------------------------------------
-- LocalGeoReader record shapes (what the three MMDB readers return)
-- ------------------------------------------------------------------

/-- An ASN.mmdb record (both fields are always present and are indexed
directly by the code). -/
structure AsnInfo where
  autonomous_system_number : Int
  autonomous_system_organization : String

/-- The optional `location` sub-record of a City.mmdb record; the code reads
latitude/longitude with `.get`, so each may be absent. -/
structure LocRec where
  latitude : Option Int
  longitude : Option Int

/-- A country-ish sub-record: `iso_code` is indexed directly, the names map
is read through `get_des`/`get_country`. -/
structure CountryRec where
  iso_code : String
  named : NamedRec

/-- A City.mmdb record, with the optional parts the code tests with
`"k" in city_info` / `.get`. -/
structure CityInfo where
  location : Option LocRec
  country : Option CountryRec
  registered_country : Option CountryRec
  subdivisions : List NamedRec
  city : Option NamedRec

/-- A Country.mmdb (jurisdiction override) record; all fields are read with
`.get`, so every one may be absent. -/
structure CnInfo where
  province : Option String
  city : Option String
  districts : Option String
  isp : Option String
  net : Option String

def optPy : Option Int → PyVal
  | some n => PyVal.int n
  | Option.none => PyVal.null

-- ------------------------------------------------------------------
-- LocalResolutionPipeline: `get_maxmind`, `get_cn`
-- ------------------------------------------------------------------

/-- The `as_data` dict of `get_maxmind`'s ASN block: number and name, plus
the operator label (`get_as_info(...) or derive_isp_from_org(...)`)
attached only when truthy. -/
def asDataOf (a : AsnInfo) : PyDict :=
  let as_data : PyDict :=
    [("number", PyVal.int a.autonomous_system_number),
     ("name", PyVal.str a.autonomous_system_organization)]
  let as_extra := pyOrOpt (get_as_info a.autonomous_system_number)
    (derive_isp_from_org a.autonomous_system_organization)
  match as_extra with
  | some e =>
      if e ≠ "" then dictSet as_data "info" (PyVal.str e) else as_data
  | Option.none => as_data

/-- The ASN block of `get_maxmind`: store `as_data` under `"as"` when the
lookup found a record. -/
def withAsn (asnL : Option AsnInfo) (ret : PyDict) : PyDict :=
  match asnL with
  | Option.none => ret
  | some a => dictSet ret "as" (PyVal.dict (asDataOf a))

/-- The city-append condition of `get_maxmind`:
`if (not regions or city not in regions[-1]) and city not in country_name:
regions.append(city)`. -/
def regionAppendCity (regions : List String) (city country_name : String) :
    List String :=
  if (regions.isEmpty || !(strContainsSub (regions.getLastD "") city)) &&
      !(strContainsSub country_name city) then regions ++ [city]
  else regions

/-- The location/country/registered-country block of `get_maxmind` once a
City record was found. -/
def withCityGeo (c : CityInfo) (ret : PyDict) : PyDict :=
  let ret := match c.location with
    | some loc =>
        dictSet ret "location" (PyVal.dict
          [("latitude", optPy loc.latitude),
           ("longitude", optPy loc.longitude)])
    | Option.none => ret
  let ret := match c.country with
    | some cr =>
        dictSet ret "country" (PyVal.dict
          [("code", PyVal.str cr.iso_code),
           ("name", PyVal.str (get_country cr.named))])
    | Option.none => ret
  match c.registered_country with
  | some cr =>
      dictSet ret "registered_country" (PyVal.dict
        [("code", PyVal.str cr.iso_code),
         ("name", PyVal.str (get_country cr.named))])
  | Option.none => ret

/-- The country name visible to the city-append condition: the source
reads `ret["country"]["name"] if "country" in ret else ""`, and
`withCityGeo` stored that name exactly when `c.country` is set. -/
def cityCountryName (c : CityInfo) : String :=
  match c.country with
  | some cr => get_country cr.named
  | Option.none => ""

/-- The region list built by `get_maxmind` for a City record: localized
subdivision names, plus the localized city name under the append
condition. -/
def cityRegions (c : CityInfo) : List String :=
  let regions := c.subdivisions.map get_des
  match c.city with
  | some cm => regionAppendCity regions (get_des cm) (cityCountryName c)
  | Option.none => regions

/-- The province/city assignment of `get_maxmind` from the stored region
list: first element to `province`, last to `city` only when more than one
element remains. -/
def provCityBlock (dd : List String) (ret : PyDict) : PyDict :=
  if dd.isEmpty then ret
  else
    let ret := dictSet ret "province" (PyVal.str (dd.headD ""))
    if 1 < dd.length then dictSet ret "city" (PyVal.str (dd.getLastD ""))
    else ret

/-- The regions/province/city block of `get_maxmind`. -/
def withCityRegions (c : CityInfo) (ret : PyDict) : PyDict :=
  let regions := cityRegions c
  let dd := if regions.isEmpty then [] else de_duplicate regions
  provCityBlock dd (dictSet ret "regions" (PyVal.list (dd.map PyVal.str)))

/-- `get_maxmind(ip)` with the two local database lookups passed in:
`asnL` is `asn_reader.get(ip)` and `cityL` is
`city_reader.get_with_prefix_len(ip)` (record option and matched prefix
length).  Errors model Python exceptions (only `get_addr` can raise here
for a malformed `ip`). -/
def get_maxmind (asnL : Option AsnInfo) (cityL : Option CityInfo × Nat)
    (ip : String) : Except Unit PyDict :=
  let ret : PyDict := [("ip", PyVal.str ip)]
  let ret := withAsn asnL ret
  match get_addr ip cityL.2 with
  | Except.error e => Except.error e
  | Except.ok addr =>
      let ret := dictSet ret "addr" (PyVal.str addr)
      match cityL.1 with
      | Option.none => Except.ok ret
      | some c => Except.ok (withCityRegions c (withCityGeo c ret))

/-- The final step of `get_cn`: `if net_val: info["type"] = net_val`. -/
def withNet (cn : CnInfo) (info : PyDict) : PyDict :=
  match cn.net with
  | some t => if t ≠ "" then dictSet info "type" (PyVal.str t) else info
  | Option.none => info

/-- The deduplicated override regions of `get_cn`:
`de_duplicate([province, city, districts])` with each field read as
`cn_info.get(k, "") or ""`. -/
def cnRegions (cn : CnInfo) : List String :=
  de_duplicate [cn.province.getD "", cn.city.getD "", cn.districts.getD ""]

/-- The regions/province/city backfill block of `get_cn`: `regions`
replaces the field when non-empty, `province`/`city` are set only where
currently missing or falsy. -/
def cnRegionsBlock (cn : CnInfo) (info : PyDict) : PyDict :=
  let regions := cnRegions cn
  if regions.isEmpty then info
  else
    let info := dictSet info "regions" (PyVal.list (regions.map PyVal.str))
    let info :=
      if pyTruthy (dictGetD info "province" PyVal.null) then info
      else dictSet info "province" (PyVal.str (regions.headD ""))
    if 1 < regions.length && !(pyTruthy (dictGetD info "city" PyVal.null)) then
      dictSet info "city" (PyVal.str (regions.getLastD ""))
    else info

/-- The `if "as" not in info: info["as"] = {}` step of `get_cn`. -/
def cnEnsureAs (info : PyDict) : PyDict :=
  if (dictGet info "as").isNone then dictSet info "as" (PyVal.dict [])
  else info

/-- The ISP and network-type steps of `get_cn`: a truthy ISP label is
written into `info["as"]["info"]` unconditionally (raising if `info["as"]`
is not a dict), then `withNet` runs. -/
def cnIspBlock (cn : CnInfo) (info : PyDict) : Except Unit PyDict :=
  match cn.isp with
  | some s =>
      if s ≠ "" then
        match dictGet info "as" with
        | some (PyVal.dict d) =>
            Except.ok (withNet cn (dictSet info "as"
              (PyVal.dict (dictSet d "info" (PyVal.str s)))))
        | _ => Except.error ()
      else Except.ok (withNet cn info)
  | Option.none => Except.ok (withNet cn info)

/-- `get_cn(ip, info)` with the Country.mmdb lookup passed in (`cnL` is
`cn_reader.get_with_prefix_len(ip)`).  The source mutates `info` in place;
the updated dict is returned.  Errors model Python exceptions. -/
def get_cn (cnL : Option CnInfo × Nat) (ip : String) (info : PyDict) :
    Except Unit PyDict :=
  match cnL.1 with
  | Option.none => Except.ok info
  | some cn =>
      match get_addr ip cnL.2 with
      | Except.error e => Except.error e
      | Except.ok addr =>
          cnIspBlock cn (cnEnsureAs (cnRegionsBlock cn
            (dictSet info "addr" (PyVal.str addr))))

-- ------------------------------------------------------------------
-- The unified record template and `build_uniform_result`
-- ------------------------------------------------------------------

/-- `_unified_template()`: the 17-field all-empty unified record. -/
def unified_template : PyDict := [
  ("ip", PyVal.str ""), ("addr", PyVal.str ""), ("as_number", PyVal.str ""),
  ("as_name", PyVal.str ""), ("as_info", PyVal.str ""),
  ("country_code", PyVal.str ""), ("country_name", PyVal.str ""),
  ("registered_country_code", PyVal.str ""),
  ("registered_country_name", PyVal.str ""), ("latitude", PyVal.str ""),
  ("longitude", PyVal.str ""), ("province", PyVal.str ""),
  ("city", PyVal.str ""), ("regions", PyVal.str ""), ("type", PyVal.str ""),
  ("timezone", PyVal.str ""), ("isp", PyVal.str "")]

/-- The 17 field names of the unified schema, in template order. -/
def unifiedKeys : List String := unified_template.map Prod.fst

/-- The inner helper `get_nested` of `build_uniform_result`: walk nested
dicts with `.get`, returning the default `""` on `None`, a missing key or a
non-dict intermediate (the code catches the exception and returns the
default). -/
def nestedGo : PyVal → List String → PyVal
  | PyVal.null, _ => PyVal.str ""
  | cur, [] => cur
  | PyVal.dict d, k :: ks => nestedGo (dictGetD d k PyVal.null) ks
  | _, _ :: _ => PyVal.str ""

def get_nested (info : PyDict) (keys : List String) : PyVal :=
  nestedGo (PyVal.dict info) keys

/-- The strings of a value list, or nothing if some element is not a
string. -/
def strListOf : List PyVal → Option (List String)
  | [] => some []
  | PyVal.str s :: rest => (strListOf rest).map (fun ss => s :: ss)
  | _ => Option.none

/-- Python `sep.join(vals)`: every element must be a string, otherwise a
TypeError is raised. -/
def joinStrs (sep : String) (vals : List PyVal) : Except Unit String :=
  match strListOf vals with
  | some ss => Except.ok (String.intercalate sep ss)
  | Option.none => Except.error ()

/-- The regions field of `build_uniform_result`:
`",".join(info.get("regions", [])) if info.get("regions") else ""`.
Joining a string iterates its characters and joining a dict iterates its
keys, as in Python; joining any other truthy value raises. -/
def regionsJoined (info : PyDict) : Except Unit String :=
  let rv := dictGetD info "regions" PyVal.null
  if pyTruthy rv then
    match dictGetD info "regions" (PyVal.list []) with
    | PyVal.list l => joinStrs "," l
    | PyVal.str s =>
        Except.ok (String.intercalate "," (s.toList.map (fun c => String.mk [c])))
    | PyVal.dict d => joinStrs "," (d.map (fun kv => PyVal.str kv.1))
    | _ => Except.error ()
  else Except.ok ""

/-- The final loop of `build_uniform_result`: every `None` value is
replaced by the empty string. -/
def noneToEmpty (d : PyDict) : PyDict :=
  d.map (fun kv => match kv.2 with
    | PyVal.null => (kv.1, PyVal.str "")
    | _ => kv)

/-- The result dict literal of `build_uniform_result` before the
`None → ""` replacement pass. -/
def burFields (info : PyDict) (rstr : String) : PyDict := [
  ("ip", dictGetD info "ip" (PyVal.str "")),
  ("addr", dictGetD info "addr" (PyVal.str "")),
  ("as_number", get_nested info ["as", "number"]),
  ("as_name", get_nested info ["as", "name"]),
  ("as_info", get_nested info ["as", "info"]),
  ("country_code", get_nested info ["country", "code"]),
  ("country_name", get_nested info ["country", "name"]),
  ("registered_country_code",
    get_nested info ["registered_country", "code"]),
  ("registered_country_name",
    get_nested info ["registered_country", "name"]),
  ("latitude", get_nested info ["location", "latitude"]),
  ("longitude", get_nested info ["location", "longitude"]),
  ("province", dictGetD info "province" (PyVal.str "")),
  ("city", dictGetD info "city" (PyVal.str "")),
  ("regions", PyVal.str rstr),
  ("type", dictGetD info "type" (PyVal.str ""))]

/-- `build_uniform_result(info)`: flatten the nested local-pipeline dict
into the uniform shape (15 keys; no `timezone`, no `isp`). -/
def build_uniform_result (info : PyDict) : Except Unit PyDict :=
  match regionsJoined info with
  | Except.error e => Except.error e
  | Except.ok rstr => Except.ok (noneToEmpty (burFields info rstr))

def isStrCN : PyVal → Bool
  | PyVal.str s => s = "CN"
  | _ => false

/-- The condition of `get_ip_info_local` deciding whether to run the
jurisdiction override: `("country" in info and
info.get("country", {}).get("code") == "CN") and ("registered_country" not
in info or info.get("registered_country", {}).get("code") == "CN")`, with
Python's short-circuiting; `.get` on a non-dict value raises. -/
def condCN (info : PyDict) : Except Unit Bool :=
  match dictGet info "country" with
  | Option.none => Except.ok false
  | some cv =>
      match cv with
      | PyVal.dict cd =>
          if !(isStrCN (dictGetD cd "code" PyVal.null)) then Except.ok false
          else
            match dictGet info "registered_country" with
            | Option.none => Except.ok true
            | some rv =>
                match rv with
                | PyVal.dict rd =>
                    Except.ok (isStrCN (dictGetD rd "code" PyVal.null))
                | _ => Except.error ()
      | _ => Except.error ()

/-- `get_ip_info_local(ip)`: local pipeline only.  A `get_cn` exception is
swallowed (`except Exception: pass`); its only failure points lie before
any observable mutation in every state reachable from `get_maxmind`, so
dropping the partial update is faithful here. -/
def get_ip_info_local (asnL : Option AsnInfo) (cityL : Option CityInfo × Nat)
    (cnL : Option CnInfo × Nat) (ip : String) : Except Unit PyDict :=
  match get_maxmind asnL cityL ip with
  | Except.error e => Except.error e
  | Except.ok info =>
      match condCN info with
      | Except.error e => Except.error e
      | Except.ok cond =>
          let info :=
            if cond then
              match get_cn cnL ip info with
              | Except.ok i => i
              | Except.error _ => info
            else info
          build_uniform_result info

-- ------------------------------------------------------------------
-- Remote source adapters
-- ------------------------------------------------------------------

/-- Python `str(value)`.  The bracketed rendering of lists and dicts
approximates Python's `repr`; it is only ever consumed by the digit filter
of `_as_number_from_string`. -/
def pyStr : PyVal → String
  | .str s => s
  | .int n => toString n
  | .null => "None"
  | .list l => "[" ++ String.intercalate ", " (l.attach.map (fun x => pyStr x.1)) ++ "]"
  | .dict d => "\x7b" ++ String.intercalate ", " (d.attach.map (fun x => pyStr x.1.2)) ++ "\x7d"
decreasing_by
  · simp only [PyVal.list.sizeOf_spec]
    have h := List.sizeOf_lt_of_mem x.2
    omega
  · simp only [PyVal.dict.sizeOf_spec]
    have h := List.sizeOf_lt_of_mem x.2
    have h2 : sizeOf x.1.2 < sizeOf x.1 := by
      obtain ⟨⟨a, b⟩, hp⟩ := x
      simp
    omega

def isSpaceChar (c : Char) : Bool :=
  c = ' ' || c = '\t' || c = '\n' || c = '\r' || c = '\x0b' || c = '\x0c'

/-- Python `s.strip()` on the character list. -/
def trimChars (l : List Char) : List Char :=
  ((l.dropWhile isSpaceChar).reverse.dropWhile isSpaceChar).reverse

/-- `_as_number_from_string(value)`: `None` gives `""`; otherwise strip the
string form, drop a leading `AS` marker (case-insensitively), and keep only
digit characters. -/
def as_number_from_string (value : PyVal) : String :=
  match value with
  | PyVal.null => ""
  | _ =>
      let s := trimChars (pyStr value).toList
      let s := match s.map Char.toUpper with
        | 'A' :: 'S' :: _ => s.drop 2
        | _ => s
      String.mk (s.filter Char.isDigit)

/-- Python `.upper()` on a value: only strings have the method; anything
else raises AttributeError. -/
def upperPy (v : PyVal) : Except Unit String :=
  match v with
  | PyVal.str s => Except.ok (String.mk (s.toList.map Char.toUpper))
  | _ => Except.error ()

/-- `_from_ip_sb(j)`: adapter for `api.ip.sb/geoip`. -/
def from_ip_sb (j : PyVal) : Except Unit PyDict :=
  match j with
  | PyVal.dict jd =>
      let u := unified_template
      let u := dictSet u "ip" (dictGetD jd "ip" (PyVal.str ""))
      let u := dictSet u "country_code" (dictGetD jd "country_code" (PyVal.str ""))
      let u := dictSet u "country_name" (dictGetD jd "country" (PyVal.str ""))
      let u := dictSet u "latitude" (dictGetD jd "latitude" (PyVal.str ""))
      let u := dictSet u "longitude" (dictGetD jd "longitude" (PyVal.str ""))
      let u := dictSet u "timezone" (dictGetD jd "timezone" (PyVal.str ""))
      let u := dictSet u "as_number"
        (PyVal.str (as_number_from_string (dictGetD jd "asn" PyVal.null)))
      let u := dictSet u "as_name" (pyOr (dictGetD jd "asn_organization" PyVal.null)
        (pyOr (dictGetD jd "organization" PyVal.null) (PyVal.str "")))
      let u := dictSet u "as_info" (dictGetD u "as_name" (PyVal.str ""))
      let u := dictSet u "isp" (dictGetD jd "isp" (PyVal.str ""))
      Except.ok u
  | _ => Except.error ()

/-- `_from_ip2location(j)`: adapter for `api.ip2location.io`. -/
def from_ip2location (j : PyVal) : Except Unit PyDict :=
  match j with
  | PyVal.dict jd =>
      let u := unified_template
      let u := dictSet u "ip" (dictGetD jd "ip" (PyVal.str ""))
      let u := dictSet u "country_code" (dictGetD jd "country_code" (PyVal.str ""))
      let u := dictSet u "country_name" (dictGetD jd "country_name" (PyVal.str ""))
      let u := dictSet u "province" (dictGetD jd "region_name" (PyVal.str ""))
      let u := dictSet u "city" (dictGetD jd "city_name" (PyVal.str ""))
      let u := dictSet u "latitude" (dictGetD jd "latitude" (PyVal.str ""))
      let u := dictSet u "longitude" (dictGetD jd "longitude" (PyVal.str ""))
      let u := dictSet u "as_number"
        (PyVal.str (as_number_from_string (dictGetD jd "asn" PyVal.null)))
      let u := dictSet u "as_name" (dictGetD jd "as" (PyVal.str ""))
      let u := dictSet u "as_info" (dictGetD u "as_name" (PyVal.str ""))
      let u := dictSet u "timezone" (dictGetD jd "time_zone" (PyVal.str ""))
      Except.ok u
  | _ => Except.error ()

/-- `_from_realip(j)`: adapter for `realip.cc`. -/
def from_realip (j : PyVal) : Except Unit PyDict :=
  match j with
  | PyVal.dict jd =>
      let u := unified_template
      let u := dictSet u "ip" (dictGetD jd "ip" (PyVal.str ""))
      let u := dictSet u "country_code" (dictGetD jd "iso_code" (PyVal.str ""))
      let u := dictSet u "country_name" (dictGetD jd "country" (PyVal.str ""))
      let u := dictSet u "province"
        (pyOr (dictGetD jd "province" (PyVal.str "")) (PyVal.str ""))
      let u := dictSet u "city"
        (pyOr (dictGetD jd "city" (PyVal.str "")) (PyVal.str ""))
      let u := dictSet u "latitude" (dictGetD jd "latitude" (PyVal.str ""))
      let u := dictSet u "longitude" (dictGetD jd "longitude" (PyVal.str ""))
      let u := dictSet u "addr" (dictGetD jd "network" (PyVal.str ""))
      let u := dictSet u "isp" (dictGetD jd "isp" (PyVal.str ""))
      Except.ok u
  | _ => Except.error ()

/-- `_from_ip_api(j)`: adapter for `ip-api.com`. -/
def from_ip_api (j : PyVal) : Except Unit PyDict :=
  match j with
  | PyVal.dict jd =>
      let u := unified_template
      let u := dictSet u "ip" (dictGetD jd "query" (PyVal.str ""))
      let u := dictSet u "country_code" (dictGetD jd "countryCode" (PyVal.str ""))
      let u := dictSet u "country_name" (dictGetD jd "country" (PyVal.str ""))
      let u := dictSet u "province" (dictGetD jd "regionName" (PyVal.str ""))
      let u := dictSet u "city" (pyOr (dictGetD jd "city" (PyVal.str ""))
        (dictGetD jd "district" (PyVal.str "")))
      let u := dictSet u "latitude" (dictGetD jd "lat" (PyVal.str ""))
      let u := dictSet u "longitude" (dictGetD jd "lon" (PyVal.str ""))
      let u := dictSet u "timezone" (dictGetD jd "timezone" (PyVal.str ""))
      let u := dictSet u "isp" (dictGetD jd "isp" (PyVal.str ""))
      let u := dictSet u "as_number" (PyVal.str (as_number_from_string
        (pyOr (dictGetD jd "asname" PyVal.null) (dictGetD jd "as" PyVal.null))))
      let u := dictSet u "as_name" (pyOr (dictGetD jd "asname" (PyVal.str ""))
        (dictGetD jd "org" (PyVal.str "")))
      let u := dictSet u "as_info" (dictGetD jd "as" (PyVal.str ""))
      Except.ok u
  | _ => Except.error ()

/-- `_from_ipapi_is(j)`: adapter for `api.ipapi.is`.  The nested `location`,
`asn` and `company` sub-objects are read with `.get`, raising when a truthy
non-dict stands in their place. -/
def from_ipapi_is (j : PyVal) : Except Unit PyDict :=
  match j with
  | PyVal.dict jd =>
      match pyOr (dictGetD jd "location" (PyVal.dict [])) (PyVal.dict []),
          pyOr (dictGetD jd "asn" (PyVal.dict [])) (PyVal.dict []) with
      | PyVal.dict locd, PyVal.dict asnd =>
          match upperPy (pyOr (dictGetD locd "country" PyVal.null)
              (pyOr (dictGetD locd "country_code" PyVal.null) (PyVal.str ""))) with
          | Except.error e => Except.error e
          | Except.ok cc =>
              match pyOr (dictGetD jd "company" (PyVal.dict [])) (PyVal.dict []) with
              | PyVal.dict compd =>
                  let u := unified_template
                  let u := dictSet u "ip" (dictGetD jd "ip" (PyVal.str ""))
                  let u := dictSet u "country_code" (PyVal.str cc)
                  let u := dictSet u "country_name"
                    (pyOr (dictGetD locd "country" (PyVal.str "")) (PyVal.str ""))
                  let u := dictSet u "province"
                    (pyOr (dictGetD locd "state" (PyVal.str "")) (PyVal.str ""))
                  let u := dictSet u "city"
                    (pyOr (dictGetD locd "city" (PyVal.str "")) (PyVal.str ""))
                  let u := dictSet u "latitude" (dictGetD locd "latitude" (PyVal.str ""))
                  let u := dictSet u "longitude" (dictGetD locd "longitude" (PyVal.str ""))
                  let u := dictSet u "timezone" (dictGetD locd "timezone" (PyVal.str ""))
                  let u := dictSet u "as_number"
                    (PyVal.str (as_number_from_string (dictGetD asnd "asn" PyVal.null)))
                  let u := dictSet u "as_name" (dictGetD asnd "org" (PyVal.str ""))
                  let u := dictSet u "as_info" (pyOr (dictGetD asnd "descr" (PyVal.str ""))
                    (dictGetD asnd "org" (PyVal.str "")))
                  let u := dictSet u "isp" (dictGetD compd "name" (PyVal.str ""))
                  let u :=
                    if pyTruthy (dictGetD jd "is_datacenter" PyVal.null) then
                      dictSet u "type" (PyVal.str "datacenter")
                    else u
                  Except.ok u
              | _ => Except.error ()
      | _, _ => Except.error ()
  | _ => Except.error ()

/-- `_from_ipwhois(j)`: adapter for `ipwhois.app`. -/
def from_ipwhois (j : PyVal) : Except Unit PyDict :=
  match j with
  | PyVal.dict jd =>
      let u := unified_template
      let u := dictSet u "ip" (dictGetD jd "ip" (PyVal.str ""))
      let u := dictSet u "country_code" (dictGetD jd "country_code" (PyVal.str ""))
      let u := dictSet u "country_name" (dictGetD jd "country" (PyVal.str ""))
      let u := dictSet u "province" (dictGetD jd "region" (PyVal.str ""))
      let u := dictSet u "city" (dictGetD jd "city" (PyVal.str ""))
      let u := dictSet u "latitude" (dictGetD jd "latitude" (PyVal.str ""))
      let u := dictSet u "longitude" (dictGetD jd "longitude" (PyVal.str ""))
      let u := dictSet u "timezone" (pyOr (dictGetD jd "timezone" (PyVal.str ""))
        (dictGetD jd "timezone_name" (PyVal.str "")))
      let u := dictSet u "as_number"
        (PyVal.str (as_number_from_string (dictGetD jd "asn" PyVal.null)))
      let u := dictSet u "as_name" (dictGetD jd "org" (PyVal.str ""))
      let u := dictSet u "as_info" (pyOr (dictGetD jd "as" (PyVal.str ""))
        (dictGetD jd "org" (PyVal.str "")))
      let u := dictSet u "isp" (dictGetD jd "isp" (PyVal.str ""))
      Except.ok u
  | _ => Except.error ()

-- ------------------------------------------------------------------
-- RemoteAggregator: `get_ip_info_remote`
-- ------------------------------------------------------------------

/-- The six remote sources of `_sources_for_ip`. -/
inductive RSource where
  | ip_sb | ip2location | realip | ip_api | ipapi_is | ipwhois
deriving Repr, DecidableEq

/-- The adapter attached to each source in `_sources_for_ip`. -/
def mapperOf : RSource → PyVal → Except Unit PyDict
  | RSource.ip_sb => from_ip_sb
  | RSource.ip2location => from_ip2location
  | RSource.realip => from_realip
  | RSource.ip_api => from_ip_api
  | RSource.ipapi_is => from_ipapi_is
  | RSource.ipwhois => from_ipwhois

/-- The source list of `_sources_for_ip`, in declaration order (the
aggregator shuffles it; the shuffled order is a parameter below). -/
def sources_for_ip : List RSource :=
  [RSource.ip_sb, RSource.ip2location, RSource.realip, RSource.ip_api,
   RSource.ipapi_is, RSource.ipwhois]

/-- The attempt loop of `get_ip_info_remote`: stop once `maxS` sources were
tried; a fetch failure (network error, non-200 status, malformed JSON
body) or a mapper exception skips the source; a mapped partial is merged
into the accumulator. -/
def remoteLoop (fetch : RSource → Option PyVal) (maxS : Nat) :
    List RSource → Nat → PyDict → PyDict
  | [], _, u => u
  | s :: rest, tried, u =>
      if maxS ≤ tried then u
      else
        match fetch s with
        | Option.none => remoteLoop fetch maxS rest (tried + 1) u
        | some j =>
            match mapperOf s j with
            | Except.error _ => remoteLoop fetch maxS rest (tried + 1) u
            | Except.ok inc =>
                remoteLoop fetch maxS rest (tried + 1) (merge_unified u inc)

/-- The trailing regions fallback, shared verbatim by `get_ip_info_remote`
and `get_ip_info`: if `regions` is falsy, join the truthy entries of
`[province, city]` with a comma (raising if a truthy entry is not a
string), else store the empty string. -/
def regionsFix (u : PyDict) : Except Unit PyDict :=
  if pyTruthy (dictGetD u "regions" PyVal.null) then Except.ok u
  else
    let parts : List PyVal :=
      [dictGetD u "province" (PyVal.str ""), dictGetD u "city" (PyVal.str "")]
    if parts.any pyTruthy then
      match joinStrs "," (parts.filter pyTruthy) with
      | Except.ok s => Except.ok (dictSet u "regions" (PyVal.str s))
      | Except.error e => Except.error e
    else Except.ok (dictSet u "regions" (PyVal.str ""))

/-- `get_ip_info_remote(ip, max_sources, timeout, lang)`: the accumulator
starts as the template with `ip` filled in, then the shuffled sources are
polled.  The shuffled order and the per-source outcomes are parameters
(`order`, `fetch`); the timeout and language only shape the URLs, which
live inside `fetch`. -/
def get_ip_info_remote (ip : String) (order : List RSource)
    (fetch : RSource → Option PyVal) (max_sources : Nat) :
    Except Unit PyDict :=
  let unified := dictSet unified_template "ip" (PyVal.str ip)
  regionsFix (remoteLoop fetch max_sources order 0 unified)

-- ------------------------------------------------------------------
-- ResolutionCoordinator: `get_ip_info`
-- ------------------------------------------------------------------

/-- The exogenous inputs of one resolution: the three local database
lookups and the remote attempt order and outcomes. -/
structure Env where
  asnL : Option AsnInfo
  cityL : Option CityInfo × Nat
  cnL : Option CnInfo × Nat
  order : List RSource
  fetch : RSource → Option PyVal

/-- Step 1 of `get_ip_info`: the remote pass under its failure boundary —
an exception yields the all-empty template with only `ip` set. -/
def remoteOrTemplate (env : Env) (ip : String) : PyDict :=
  match get_ip_info_remote ip env.order env.fetch 3 with
  | Except.ok r => r
  | Except.error _ => dictSet unified_template "ip" (PyVal.str ip)

/-- `get_ip_info(ip)`: remote pass first (failure boundary around it), then
the local pipeline (failure boundary: an exception yields `{}`), merge
local into remote, then the final regions fallback (which is outside any
boundary in the source and can therefore raise). -/
def get_ip_info (env : Env) (ip : String) : Except Unit PyDict :=
  let remote := remoteOrTemplate env ip
  let localD := match get_ip_info_local env.asnL env.cityL env.cnL ip with
    | Except.ok d => d
    | Except.error _ => []
  regionsFix (merge_unified remote localD)

-- ------------------------------------------------------------------
-- Concrete environments and helper definitions used by the theorems
-- ------------------------------------------------------------------

/-- The field of a fallible record result; `Option.none` on error or on a
missing key. -/
def exceptField (r : Except Unit PyDict) (k : String) : Option PyVal :=
  match r with
  | Except.ok d => dictGet d k
  | Except.error _ => Option.none

/-- The value stored under `info["as"]["info"]` of a fallible record
result, if any. -/
def asInfoOf (r : Except Unit PyDict) : Option PyVal :=
  match r with
  | Except.ok d =>
      match dictGet d "as" with
      | some (PyVal.dict ad) => dictGet ad "info"
      | _ => Option.none
  | Except.error _ => Option.none

/-- The 15 keys produced by `build_uniform_result`, in order. -/
def uniformKeys : List String :=
  ["ip", "addr", "as_number", "as_name", "as_info", "country_code",
   "country_name", "registered_country_code", "registered_country_name",
   "latitude", "longitude", "province", "city", "regions", "type"]

/-- The value at key `k` holds a string (or the key is absent). -/
def StrAt (d : PyDict) (k : String) : Prop :=
  ∀ v, dictGet d k = some v → ∃ s, v = PyVal.str s

/-- An environment where the single polled remote source answers with an
explicit JSON `null` timezone and the local lookups find nothing. -/
def envC1 : Env := {
  asnL := Option.none
  cityL := (Option.none, 24)
  cnL := (Option.none, 0)
  order := [RSource.ip_sb]
  fetch := fun _ => some (PyVal.dict [("timezone", PyVal.null)]) }

/-- An environment whose remote pass raises: the polled source reports a
truthy non-string `province`, which the regions fallback of
`get_ip_info_remote` cannot join. -/
def envC3 : Env := {
  asnL := Option.none
  cityL := (Option.none, 8)
  cnL := (Option.none, 0)
  order := [RSource.realip]
  fetch := fun _ => some (PyVal.dict [("province", PyVal.int 5)]) }

/-- An environment where the polled remote source reports a different ip
than the one queried. -/
def envC9 : Env := {
  asnL := Option.none
  cityL := (Option.none, 24)
  cnL := (Option.none, 0)
  order := [RSource.ip_sb]
  fetch := fun _ => some (PyVal.dict [("ip", PyVal.str "1.1.1.1")]) }

/-- An environment where every remote source fails. -/
def envC10 : Env := {
  asnL := Option.none
  cityL := (Option.none, 24)
  cnL := (Option.none, 0)
  order := sources_for_ip
  fetch := fun _ => Option.none }

/-- A jurisdiction-override record carrying a (truthy) ISP label. -/
def cnC4 : CnInfo := {
  province := some "广东"
  city := some "深圳"
  districts := Option.none
  isp := some "中国电信"
  net := Option.none }

/-- A local record whose ASN step already attached an operator label. -/
def infoC4 : PyDict :=
  [("ip", PyVal.str "1.2.3.4"),
   ("as", PyVal.dict [("number", PyVal.int 37963),
     ("name", PyVal.str "Alibaba"), ("info", PyVal.str "阿里云")])]

/-- A City record with one subdivision and a city name. -/
def cityC5 : CityInfo := {
  location := Option.none
  country := some { iso_code := "CN", named := { names := [("zh-CN", "中国")] } }
  registered_country := Option.none
  subdivisions := [{ names := [("zh-CN", "广东")] }]
  city := some { names := [("zh-CN", "深圳")] } }

/-- An ASN record whose number is in the static table (中国电信) while the
organization name would also match the cloud heuristic (阿里云). -/
def asnC7 : AsnInfo := {
  autonomous_system_number := 4134
  autonomous_system_organization := "Alibaba Cloud" }

/-- An ASN record missing from the static table whose organization name
matches the heuristic. -/
def asnC7b : AsnInfo := {
  autonomous_system_number := 99999999
  autonomous_system_organization := "Alibaba Cloud" }

-- ------------------------------------------------------------------
-- Basic dictionary lemmas
-- ------------------------------------------------------------------

theorem dictGet_dictSet_self (d : PyDict) (k : String) (v : PyVal) :
    dictGet (dictSet d k v) k = some v := by
  induction d with
  | nil => simp [dictSet, dictGet]
  | cons kv rest ih =>
      obtain ⟨k', w⟩ := kv
      by_cases h : k' = k
      · simp [dictSet, dictGet, h]
      · simp [dictSet, dictGet, h, ih]

theorem dictGet_dictSet_ne (d : PyDict) (k k' : String) (v : PyVal)
    (h : k ≠ k') : dictGet (dictSet d k v) k' = dictGet d k' := by
  induction d with
  | nil => simp [dictSet, dictGet, h]
  | cons kv rest ih =>
      obtain ⟨k0, w⟩ := kv
      by_cases h0 : k0 = k
      · subst h0
        simp [dictSet, dictGet, h]
      · simp only [dictSet, if_neg h0]
        by_cases h1 : k0 = k'
        · simp [dictGet, h1]
        · simp [dictGet, h1, ih]

theorem dictGet_dictSet_isSome (d : PyDict) (k k' : String) (v : PyVal)
    (h : (dictGet d k').isSome) : (dictGet (dictSet d k v) k').isSome := by
  by_cases hk : k = k'
  · subst hk; simp [dictGet_dictSet_self]
  · rwa [dictGet_dictSet_ne _ _ _ _ hk]

theorem dictGet_eq_none_iff (d : PyDict) (k : String) :
    dictGet d k = Option.none ↔ k ∉ d.map Prod.fst := by
  induction d with
  | nil => simp [dictGet]
  | cons kv rest ih =>
      obtain ⟨k0, v0⟩ := kv
      by_cases h : k0 = k
      · subst h; simp [dictGet]
      · simp [dictGet, h, ih, Ne.symm h]

-- ------------------------------------------------------------------
-- Lemmas about `_merge_unified`
-- ------------------------------------------------------------------

theorem merge_unified_eq_foldl (base inc : PyDict) :
    merge_unified base inc = inc.foldl mergeStep base := by
  cases inc <;> simp [merge_unified]

theorem mergeStep_get_ne (b : PyDict) (kv : String × PyVal) (k : String)
    (h : kv.1 ≠ k) : dictGet (mergeStep b kv) k = dictGet b k := by
  unfold mergeStep
  cases dictGet b kv.1 with
  | none => exact dictGet_dictSet_ne _ _ _ _ h
  | some v =>
      by_cases he : isEmptyVal v
      · simp [he, dictGet_dictSet_ne _ _ _ _ h]
      · simp [he]

theorem foldl_mergeStep_get_not_mem (inc : List (String × PyVal))
    (b : PyDict) (k : String) (h : k ∉ inc.map Prod.fst) :
    dictGet (inc.foldl mergeStep b) k = dictGet b k := by
  induction inc generalizing b with
  | nil => rfl
  | cons kv rest ih =>
      simp only [List.map_cons, List.mem_cons] at h
      push_neg at h
      simp only [List.foldl_cons]
      rw [ih _ h.2, mergeStep_get_ne _ _ _ (fun he => h.1 he.symm)]

theorem merge_unified_get_not_mem (base inc : PyDict) (k : String)
    (h : k ∉ inc.map Prod.fst) :
    dictGet (merge_unified base inc) k = dictGet base k := by
  rw [merge_unified_eq_foldl]
  exact foldl_mergeStep_get_not_mem _ _ _ h

theorem foldl_mergeStep_get_nonempty (inc : List (String × PyVal))
    (b : PyDict) (k : String) (v : PyVal) (hv : dictGet b k = some v)
    (hne : isEmptyVal v = false) :
    dictGet (inc.foldl mergeStep b) k = some v := by
  induction inc generalizing b with
  | nil => exact hv
  | cons kv rest ih =>
      simp only [List.foldl_cons]
      apply ih
      by_cases hk : kv.1 = k
      · unfold mergeStep
        rw [hk, hv]
        simp [hne, hv]
      · rw [mergeStep_get_ne _ _ _ hk]; exact hv

/-- A non-empty field of the accumulator is never overwritten by a merge. -/
theorem merge_unified_get_nonempty (base inc : PyDict) (k : String)
    (v : PyVal) (hv : dictGet base k = some v) (hne : isEmptyVal v = false) :
    dictGet (merge_unified base inc) k = some v := by
  rw [merge_unified_eq_foldl]
  exact foldl_mergeStep_get_nonempty _ _ _ _ hv hne

theorem foldl_mergeStep_isSome (inc : List (String × PyVal)) (b : PyDict)
    (k : String) (h : (dictGet b k).isSome) :
    (dictGet (inc.foldl mergeStep b) k).isSome := by
  induction inc generalizing b with
  | nil => exact h
  | cons kv rest ih =>
      simp only [List.foldl_cons]
      apply ih
      unfold mergeStep
      cases hg : dictGet b kv.1 with
      | none => exact dictGet_dictSet_isSome _ _ _ _ h
      | some w =>
          by_cases he : isEmptyVal w
          · simpa [he] using dictGet_dictSet_isSome _ kv.1 k kv.2 h
          · simpa [he] using h

/-- Every key present in the accumulator stays present after a merge. -/
theorem merge_unified_isSome (base inc : PyDict) (k : String)
    (h : (dictGet base k).isSome) :
    (dictGet (merge_unified base inc) k).isSome := by
  rw [merge_unified_eq_foldl]
  exact foldl_mergeStep_isSome _ _ _ h

/-- Full characterisation of `_merge_unified` on dicts with distinct keys:
a field of `inc` lands in `base` exactly when `base` lacks the key or holds
an empty value there. -/
theorem merge_unified_lookup (base inc : PyDict)
    (hnd : (inc.map Prod.fst).Nodup) (k : String) :
    dictGet (merge_unified base inc) k =
      match dictGet inc k, dictGet base k with
      | Option.none, bv => bv
      | some v, Option.none => some v
      | some v, some bv => if isEmptyVal bv then some v else some bv := by
  rw [merge_unified_eq_foldl]
  induction inc generalizing base with
  | nil => simp [dictGet]
  | cons kv rest ih =>
      obtain ⟨k0, v0⟩ := kv
      simp only [List.map_cons, List.nodup_cons] at hnd
      simp only [List.foldl_cons]
      by_cases hk : k0 = k
      · subst hk
        have hrest : dictGet rest k0 = Option.none :=
          (dictGet_eq_none_iff _ _).2 hnd.1
        rw [foldl_mergeStep_get_not_mem _ _ _ hnd.1]
        unfold mergeStep
        simp only [dictGet, if_pos rfl]
        cases hb : dictGet base k0 with
        | none => simp [dictGet_dictSet_self]
        | some bv =>
            by_cases he : isEmptyVal bv
            · simp [he, dictGet_dictSet_self]
            · simp [he, hb]
      · rw [ih _ hnd.2]
        have hstep : dictGet (mergeStep base (k0, v0)) k = dictGet base k :=
          mergeStep_get_ne _ _ _ hk
        simp only [dictGet, if_neg hk]
        rw [hstep]

-- ------------------------------------------------------------------
-- Lemmas about `de_duplicate`
-- ------------------------------------------------------------------

theorem dedupOrderedSpec_cons (x : String) (xs : List String) :
    dedupOrderedSpec (x :: xs) =
      x :: dedupOrderedSpec (xs.filter (fun s => s ≠ x)) := by
  rw [dedupOrderedSpec]

theorem de_duplicate_foldl_go (l : List String) (acc : List String) :
    l.foldl (fun ret i => if i ∈ ret then ret else ret ++ [i]) acc =
      acc ++ dedupOrderedSpec (l.filter (fun i => i ∉ acc)) := by
  induction l generalizing acc with
  | nil => simp [dedupOrderedSpec]
  | cons x xs ih =>
      by_cases hx : x ∈ acc
      · simp only [List.foldl_cons, if_pos hx, List.filter_cons,
          decide_eq_true_eq]
        rw [if_neg (by simp [hx])]
        exact ih acc
      · simp only [List.foldl_cons, if_neg hx, List.filter_cons,
          decide_eq_true_eq, if_pos hx]
        rw [ih (acc ++ [x])]
        have hfil : (xs.filter (fun i => i ∉ acc)).filter (fun s => s ≠ x) =
            xs.filter (fun i => i ∉ acc ++ [x]) := by
          rw [List.filter_filter]
          apply List.filter_congr
          intro a _
          by_cases h1 : a = x
          · simp [h1]
          · by_cases h2 : a ∈ acc <;> simp [h1, h2]
        rw [dedupOrderedSpec_cons, hfil]
        simp


theorem de_duplicate_eq_spec (l : List String) :
    de_duplicate l = dedupOrderedSpec (l.filter (fun s => s ≠ "")) := by
  unfold de_duplicate
  rw [de_duplicate_foldl_go]
  simp

-- ------------------------------------------------------------------
-- Facts about `dedupOrderedSpec` (membership and nodup)
-- ------------------------------------------------------------------

theorem mem_dedupOrderedSpec_aux :
    ∀ (n : Nat) (l : List String), l.length ≤ n →
      ∀ a, (a ∈ dedupOrderedSpec l ↔ a ∈ l)
  | 0, [], _, a => by simp [dedupOrderedSpec]
  | 0, x :: xs, h, a => by simp at h
  | n + 1, [], _, a => by simp [dedupOrderedSpec]
  | n + 1, x :: xs, h, a => by
      rw [dedupOrderedSpec_cons]
      have hlen : (xs.filter (fun s => s ≠ x)).length ≤ n :=
        Nat.le_trans (List.length_filter_le _ _)
          (Nat.le_of_succ_le_succ (by simpa using h))
      have ih := mem_dedupOrderedSpec_aux n (xs.filter (fun s => s ≠ x)) hlen a
      by_cases hax : a = x
      · simp [hax]
      · simp only [List.mem_cons, ih, List.mem_filter, decide_eq_true_eq]
        constructor
        · rintro (rfl | ⟨hm, _⟩)
          · exact Or.inl rfl
          · exact Or.inr hm
        · rintro (rfl | hm)
          · exact Or.inl rfl
          · exact Or.inr ⟨hm, hax⟩

theorem mem_dedupOrderedSpec (l : List String) (a : String) :
    a ∈ dedupOrderedSpec l ↔ a ∈ l :=
  mem_dedupOrderedSpec_aux l.length l (Nat.le_refl _) a

theorem nodup_dedupOrderedSpec_aux :
    ∀ (n : Nat) (l : List String), l.length ≤ n → (dedupOrderedSpec l).Nodup
  | 0, [], _ => by simp [dedupOrderedSpec]
  | 0, x :: xs, h => by simp at h
  | n + 1, [], _ => by simp [dedupOrderedSpec]
  | n + 1, x :: xs, h => by
      rw [dedupOrderedSpec_cons]
      have hlen : (xs.filter (fun s => s ≠ x)).length ≤ n :=
        Nat.le_trans (List.length_filter_le _ _)
          (Nat.le_of_succ_le_succ (by simpa using h))
      refine List.nodup_cons.2 ⟨?_, nodup_dedupOrderedSpec_aux n _ hlen⟩
      intro hx
      have := (mem_dedupOrderedSpec _ _).1 hx
      simp at this

theorem nodup_dedupOrderedSpec (l : List String) :
    (dedupOrderedSpec l).Nodup :=
  nodup_dedupOrderedSpec_aux l.length l (Nat.le_refl _)

-- ------------------------------------------------------------------
-- Claim C8
-- ------------------------------------------------------------------

/-- C8: `de_duplicate` first drops falsy/empty entries and then removes
exact duplicates preserving first-occurrence order: it coincides with the
spec-modelled stable dedup of the empty-filtered list, its result has no
duplicates, and it keeps exactly the non-empty elements. -/
theorem C8_de_duplicate_is_stable_dedup (l : List String) :
    de_duplicate l = dedupOrderedSpec (l.filter (fun s => s ≠ "")) ∧
    (de_duplicate l).Nodup ∧
    (∀ a, a ∈ de_duplicate l ↔ a ∈ l ∧ a ≠ "") := by
  refine ⟨de_duplicate_eq_spec l, ?_, ?_⟩
  · rw [de_duplicate_eq_spec l]
    exact nodup_dedupOrderedSpec _
  · intro a
    rw [de_duplicate_eq_spec l, mem_dedupOrderedSpec, List.mem_filter]
    simp

/-- Witness for C8 at the spec's concrete example. -/
theorem C8_de_duplicate_is_stable_dedup_witness :
    de_duplicate ["Beijing", "", "Beijing", "Haidian"] =
      ["Beijing", "Haidian"] ∧
    ("Beijing" ∈ de_duplicate ["Beijing", "", "Beijing", "Haidian"] ↔
      "Beijing" ∈ ["Beijing", "", "Beijing", "Haidian"] ∧ "Beijing" ≠ "") := by
  constructor
  · rfl
  · exact (C8_de_duplicate_is_stable_dedup
      ["Beijing", "", "Beijing", "Haidian"]).2.2 "Beijing"

-- ------------------------------------------------------------------
-- Claim C2
-- ------------------------------------------------------------------

/-- C2: merging `inc` into `base` with `_merge_unified` writes a field of
`inc` exactly when that field is absent from `base` or `base` holds the
empty string, `None` or numeric zero there; any other field of `base` is
untouched.  (The keys of a Python dict are necessarily distinct, whence
the `Nodup` hypothesis.) -/
theorem C2_merge_unified_policy (base inc : PyDict)
    (hnd : (inc.map Prod.fst).Nodup) (k : String) :
    dictGet (merge_unified base inc) k =
      match dictGet inc k, dictGet base k with
      | Option.none, bv => bv
      | some v, Option.none => some v
      | some v, some bv => if isEmptyVal bv then some v else some bv :=
  merge_unified_lookup base inc hnd k

/-- Witness for C2 at the spec's concrete example: merging
`inc = city B, province C` into `base = city A` keeps city A and adds
province C. -/
theorem C2_merge_unified_policy_witness :
    dictGet (merge_unified [("city", PyVal.str "A")]
        [("city", PyVal.str "B"), ("province", PyVal.str "C")]) "city" =
      some (PyVal.str "A") ∧
    dictGet (merge_unified [("city", PyVal.str "A")]
        [("city", PyVal.str "B"), ("province", PyVal.str "C")]) "province" =
      some (PyVal.str "C") ∧
    merge_unified [("city", PyVal.str "A")]
        [("city", PyVal.str "B"), ("province", PyVal.str "C")] =
      [("city", PyVal.str "A"), ("province", PyVal.str "C")] := by
  refine ⟨?_, ?_, by rfl⟩
  · rw [C2_merge_unified_policy [("city", PyVal.str "A")]
      [("city", PyVal.str "B"), ("province", PyVal.str "C")] (by decide) "city"]
    rfl
  · rw [C2_merge_unified_policy [("city", PyVal.str "A")]
      [("city", PyVal.str "B"), ("province", PyVal.str "C")] (by decide)
      "province"]
    rfl

-- ------------------------------------------------------------------
-- Claim C6
-- ------------------------------------------------------------------

/-- C6 (amended): for every parseable address and in-range mask length,
`get_addr` renders the network address obtained by zeroing the host bits
of the input (the rendered value is divisible by the host-bit power and
keeps the input's top `mask` bits), followed by `/mask`. -/
theorem C6_get_addr_masks_host_bits (ip : String) (mask v bits : Nat)
    (hp : parseIP ip = some (v, bits)) (hm : mask ≤ bits) :
    get_addr ip mask =
      Except.ok (renderIP bits (netAddr v (bits - mask)) ++ "/" ++
        toString mask) ∧
    netAddr v (bits - mask) % 2 ^ (bits - mask) = 0 ∧
    netAddr v (bits - mask) / 2 ^ (bits - mask) = v / 2 ^ (bits - mask) := by
  refine ⟨?_, Nat.mul_mod_left _ _,
    Nat.mul_div_cancel _ (Nat.pow_pos (by norm_num))⟩
  unfold get_addr
  rw [hp]
  simp [hm]

/-- C6 counterexample: the claim's first concrete example contradicts the
code: masking `8.8.8.8` to 24 bits yields `8.8.8.0/24` (the last octet is
the host part), not the claimed `8.8.0.0/24`. -/
theorem C6_get_addr_spec_example_false :
    get_addr "8.8.8.8" 24 = Except.ok "8.8.8.0/24" ∧
    "8.8.8.0/24" ≠ "8.8.0.0/24" :=
  ⟨by rfl, by decide⟩

/-- Witness for C6: the claim's IPv6 example (which is right), and the
IPv4 example with the mask the claimed output actually corresponds to. -/
theorem C6_get_addr_masks_host_bits_witness :
    get_addr "2001:db8::1" 32 = Except.ok "2001:db8::/32" ∧
    get_addr "8.8.8.8" 16 = Except.ok "8.8.0.0/16" := by
  constructor
  · rw [(C6_get_addr_masks_host_bits "2001:db8::1" 32
      42540766411282592856903984951653826561 128 (by rfl) (by norm_num)).1]
    rfl
  · rw [(C6_get_addr_masks_host_bits "8.8.8.8" 16 134744072 32 (by rfl)
      (by norm_num)).1]
    rfl

-- ------------------------------------------------------------------
-- StrAt lemmas (string-valued fields through the local pipeline)
-- ------------------------------------------------------------------

theorem StrAt_set_ne {d : PyDict} {key k : String} {v : PyVal}
    (hne : key ≠ k) (h : StrAt d k) : StrAt (dictSet d key v) k :=
  fun w hw => h w (by rwa [dictGet_dictSet_ne _ _ _ _ hne] at hw)

theorem StrAt_set_str {d : PyDict} {k : String} {s : String} :
    StrAt (dictSet d k (PyVal.str s)) k := by
  intro w hw
  rw [dictGet_dictSet_self] at hw
  exact ⟨s, (Option.some.inj hw).symm⟩

theorem StrAt_of_none {d : PyDict} {k : String}
    (h : dictGet d k = Option.none) : StrAt d k := by
  intro w hw
  rw [h] at hw
  cases hw

theorem StrAt_singleton_str (k0 s k : String) :
    StrAt [(k0, PyVal.str s)] k := by
  intro w hw
  by_cases h : k0 = k
  · subst h
    simp [dictGet] at hw
    exact ⟨s, hw.symm⟩
  · simp [dictGet, h] at hw

theorem StrAt_withAsn {asnL : Option AsnInfo} {ret : PyDict} {k : String}
    (hk : k ≠ "as") (h : StrAt ret k) : StrAt (withAsn asnL ret) k := by
  unfold withAsn
  cases asnL with
  | none => exact h
  | some a => exact StrAt_set_ne (Ne.symm hk) h

/-- Setting any key to a string value preserves string-valuedness at `k`,
whatever the key. -/
theorem StrAt_set_cases {d : PyDict} {k key s : String} (h : StrAt d k) :
    StrAt (dictSet d key (PyVal.str s)) k := by
  by_cases hk : key = k
  · subst hk; exact StrAt_set_str
  · exact StrAt_set_ne hk h

theorem StrAt_withCityGeo {c : CityInfo} {ret : PyDict} {k : String}
    (h1 : k ≠ "location") (h2 : k ≠ "country")
    (h3 : k ≠ "registered_country") (h : StrAt ret k) :
    StrAt (withCityGeo c ret) k := by
  unfold withCityGeo
  rcases c.location with _ | loc <;> rcases c.country with _ | cr <;>
    rcases c.registered_country with _ | rr <;> dsimp only <;>
    (repeat
      first
        | exact h
        | refine StrAt_set_ne (Ne.symm h1) ?_
        | refine StrAt_set_ne (Ne.symm h2) ?_
        | refine StrAt_set_ne (Ne.symm h3) ?_)

theorem StrAt_provCityBlock {dd : List String} {ret : PyDict} {k : String}
    (h : StrAt ret k) : StrAt (provCityBlock dd ret) k := by
  unfold provCityBlock
  dsimp only
  by_cases hdd : dd.isEmpty = true
  · simpa [hdd] using h
  · by_cases hl : 1 < dd.length
    · simp only [hdd, hl, if_false, if_true]
      exact StrAt_set_cases (StrAt_set_cases h)
    · simp only [hdd, hl, if_false, if_true]
      exact StrAt_set_cases h

theorem StrAt_withCityRegions {c : CityInfo} {ret : PyDict} {k : String}
    (hreg : k ≠ "regions") (h : StrAt ret k) :
    StrAt (withCityRegions c ret) k := by
  unfold withCityRegions
  dsimp only
  exact StrAt_provCityBlock (StrAt_set_ne (Ne.symm hreg) h)

theorem get_maxmind_StrAt {asnL : Option AsnInfo} {cityL : Option CityInfo × Nat}
    {ip : String} {i : PyDict} (h : get_maxmind asnL cityL ip = Except.ok i)
    (k : String) (hk : k = "province" ∨ k = "city") : StrAt i k := by
  have hbase : StrAt [("ip", PyVal.str ip)] k := StrAt_singleton_str _ _ _
  have hkas : k ≠ "as" := by rcases hk with rfl | rfl <;> decide
  have hkaddr : k ≠ "addr" := by rcases hk with rfl | rfl <;> decide
  unfold get_maxmind at h
  cases hga : get_addr ip cityL.2 with
  | error e => rw [hga] at h; cases h
  | ok addr =>
      rw [hga] at h
      cases hc : cityL.1 with
      | none =>
          rw [hc] at h
          have := Except.ok.inj h
          subst this
          exact StrAt_set_ne (Ne.symm hkaddr) (StrAt_withAsn hkas hbase)
      | some c =>
          rw [hc] at h
          have := Except.ok.inj h
          subst this
          have hmid : StrAt (withCityGeo c (dictSet (withAsn asnL
              [("ip", PyVal.str ip)]) "addr" (PyVal.str addr))) k := by
            refine StrAt_withCityGeo ?_ ?_ ?_
              (StrAt_set_ne (Ne.symm hkaddr) (StrAt_withAsn hkas hbase))
            · rcases hk with rfl | rfl <;> decide
            · rcases hk with rfl | rfl <;> decide
            · rcases hk with rfl | rfl <;> decide
          exact StrAt_withCityRegions
            (by rcases hk with rfl | rfl <;> decide) hmid

theorem StrAt_withNet {cn : CnInfo} {info : PyDict} {k : String}
    (hk : k ≠ "type") (h : StrAt info k) : StrAt (withNet cn info) k := by
  unfold withNet
  cases cn.net with
  | none => exact h
  | some t =>
      by_cases ht : t ≠ ""
      · simp only [if_pos ht]
        exact StrAt_set_ne (Ne.symm hk) h
      · simp only [if_neg ht]
        exact h

/-- StrAt is preserved by a conditional whose branches both preserve it. -/
theorem StrAt_ite {p : Prop} [Decidable p] {a b : PyDict} {k : String}
    (ha : StrAt a k) (hb : StrAt b k) : StrAt (if p then a else b) k := by
  split
  · exact ha
  · exact hb

theorem StrAt_cnRegionsBlock {cn : CnInfo} {info : PyDict} {k : String}
    (hreg : k ≠ "regions") (h : StrAt info k) :
    StrAt (cnRegionsBlock cn info) k := by
  unfold cnRegionsBlock
  dsimp only
  have h1 : StrAt (dictSet info "regions"
      (PyVal.list ((cnRegions cn).map PyVal.str))) k :=
    StrAt_set_ne (Ne.symm hreg) h
  exact StrAt_ite h (StrAt_ite
    (StrAt_set_cases (StrAt_ite h1 (StrAt_set_cases h1)))
    (StrAt_ite h1 (StrAt_set_cases h1)))

theorem StrAt_cnEnsureAs {info : PyDict} {k : String} (hk : k ≠ "as")
    (h : StrAt info k) : StrAt (cnEnsureAs info) k := by
  unfold cnEnsureAs
  split
  · exact StrAt_set_ne (Ne.symm hk) h
  · exact h

theorem StrAt_cnIspBlock {cn : CnInfo} {info i : PyDict} {k : String}
    (hok : cnIspBlock cn info = Except.ok i) (hkas : k ≠ "as")
    (hkty : k ≠ "type") (h : StrAt info k) : StrAt i k := by
  unfold cnIspBlock at hok
  cases hisp : cn.isp with
  | none =>
      rw [hisp] at hok
      have := Except.ok.inj hok
      subst this
      exact StrAt_withNet hkty h
  | some s =>
      rw [hisp] at hok
      dsimp only at hok
      by_cases hs : s ≠ ""
      · rw [if_pos hs] at hok
        cases hga : dictGet info "as" with
        | none => rw [hga] at hok; cases hok
        | some v =>
            rw [hga] at hok
            cases v with
            | dict d =>
                have := Except.ok.inj hok
                subst this
                exact StrAt_withNet hkty (StrAt_set_ne (Ne.symm hkas) h)
            | str s2 => cases hok
            | int n => cases hok
            | null => cases hok
            | list l => cases hok
      · rw [if_neg hs] at hok
        have := Except.ok.inj hok
        subst this
        exact StrAt_withNet hkty h

theorem get_cn_StrAt {cnL : Option CnInfo × Nat} {ip : String}
    {info i : PyDict} (h : get_cn cnL ip info = Except.ok i)
    (k : String) (hk : k = "province" ∨ k = "city") (hs : StrAt info k) :
    StrAt i k := by
  have hkaddr : k ≠ "addr" := by rcases hk with rfl | rfl <;> decide
  have hkreg : k ≠ "regions" := by rcases hk with rfl | rfl <;> decide
  have hkas : k ≠ "as" := by rcases hk with rfl | rfl <;> decide
  have hktype : k ≠ "type" := by rcases hk with rfl | rfl <;> decide
  unfold get_cn at h
  cases hc : cnL.1 with
  | none =>
      rw [hc] at h
      have := Except.ok.inj h
      subst this
      exact hs
  | some cn =>
      rw [hc] at h
      cases hga : get_addr ip cnL.2 with
      | error e => rw [hga] at h; cases h
      | ok addr =>
          rw [hga] at h
          exact StrAt_cnIspBlock h hkas hktype
            (StrAt_cnEnsureAs hkas (StrAt_cnRegionsBlock hkreg
              (StrAt_set_ne (Ne.symm hkaddr) hs)))

-- ------------------------------------------------------------------
-- Lemmas about `build_uniform_result`
-- ------------------------------------------------------------------

theorem noneToEmpty_get (d : PyDict) (k : String) :
    dictGet (noneToEmpty d) k = (dictGet d k).map (fun v =>
      match v with
      | PyVal.null => PyVal.str ""
      | w => w) := by
  induction d with
  | nil => simp [noneToEmpty, dictGet]
  | cons kv rest ih =>
      obtain ⟨k0, v0⟩ := kv
      by_cases h : k0 = k
      · subst h
        cases v0 <;> simp [noneToEmpty, dictGet]
      · cases v0 <;> simp [noneToEmpty, dictGet, h, ih] <;>
          simpa [noneToEmpty] using ih

theorem noneToEmpty_keys (d : PyDict) :
    (noneToEmpty d).map Prod.fst = d.map Prod.fst := by
  induction d with
  | nil => rfl
  | cons kv rest ih =>
      obtain ⟨k0, v0⟩ := kv
      cases v0 <;> simp [noneToEmpty] <;> simpa [noneToEmpty] using ih

theorem build_uniform_result_shape {info r : PyDict}
    (h : build_uniform_result info = Except.ok r) :
    ∃ rstr, regionsJoined info = Except.ok rstr ∧
      r = noneToEmpty (burFields info rstr) := by
  unfold build_uniform_result at h
  cases hr : regionsJoined info with
  | error e => rw [hr] at h; cases h
  | ok rstr =>
      rw [hr] at h
      exact ⟨rstr, rfl, (Except.ok.inj h).symm⟩

theorem build_uniform_no_timezone_isp {info r : PyDict}
    (h : build_uniform_result info = Except.ok r) :
    dictGet r "timezone" = Option.none ∧ dictGet r "isp" = Option.none := by
  obtain ⟨rstr, _, rfl⟩ := build_uniform_result_shape h
  rw [noneToEmpty_get, noneToEmpty_get]
  constructor <;> simp [burFields, dictGet]

theorem build_uniform_keys {info r : PyDict}
    (h : build_uniform_result info = Except.ok r) :
    r.map Prod.fst = uniformKeys := by
  obtain ⟨rstr, _, rfl⟩ := build_uniform_result_shape h
  rw [noneToEmpty_keys]
  simp [burFields, uniformKeys]

theorem build_uniform_StrAt {info r : PyDict}
    (h : build_uniform_result info = Except.ok r) (k : String)
    (hk : k = "province" ∨ k = "city") (hstr : StrAt info k) :
    ∃ s, dictGet r k = some (PyVal.str s) := by
  obtain ⟨rstr, _, rfl⟩ := build_uniform_result_shape h
  rw [noneToEmpty_get]
  have hfield : dictGet (burFields info rstr) k =
      some (dictGetD info k (PyVal.str "")) := by
    rcases hk with rfl | rfl <;> simp [burFields, dictGet]
  rw [hfield]
  unfold dictGetD
  cases hv : dictGet info k with
  | none => exact ⟨"", rfl⟩
  | some v =>
      obtain ⟨s, rfl⟩ := hstr v hv
      exact ⟨s, rfl⟩

theorem get_ip_info_local_StrAt {asnL : Option AsnInfo}
    {cityL : Option CityInfo × Nat} {cnL : Option CnInfo × Nat}
    {ip : String} {ld : PyDict}
    (h : get_ip_info_local asnL cityL cnL ip = Except.ok ld)
    (k : String) (hk : k = "province" ∨ k = "city") :
    ∃ s, dictGet ld k = some (PyVal.str s) := by
  unfold get_ip_info_local at h
  cases hmm : get_maxmind asnL cityL ip with
  | error e => rw [hmm] at h; cases h
  | ok info =>
      rw [hmm] at h
      dsimp only at h
      cases hcond : condCN info with
      | error e => rw [hcond] at h; cases h
      | ok cond =>
          rw [hcond] at h
          dsimp only at h
          have hinfo : StrAt info k := get_maxmind_StrAt hmm k hk
          cases cond with
          | false =>
              rw [if_neg (by simp)] at h
              exact build_uniform_StrAt h k hk hinfo
          | true =>
              rw [if_pos rfl] at h
              cases hgc : get_cn cnL ip info with
              | ok i =>
                  rw [hgc] at h
                  exact build_uniform_StrAt h k hk
                    (get_cn_StrAt hgc k hk hinfo)
              | error e =>
                  rw [hgc] at h
                  exact build_uniform_StrAt h k hk hinfo

-- ------------------------------------------------------------------
-- Lemmas about the remote aggregation loop and the regions fallback
-- ------------------------------------------------------------------

theorem remoteLoop_get_nonempty (fetch : RSource → Option PyVal) (maxS : Nat)
    (order : List RSource) :
    ∀ (tried : Nat) (u : PyDict) (k : String) (v : PyVal),
      dictGet u k = some v → isEmptyVal v = false →
      dictGet (remoteLoop fetch maxS order tried u) k = some v := by
  induction order with
  | nil =>
      intro tried u k v hv hne
      simpa [remoteLoop] using hv
  | cons s rest ih =>
      intro tried u k v hv hne
      simp only [remoteLoop]
      by_cases hm : maxS ≤ tried
      · simpa [hm] using hv
      · simp only [if_neg hm]
        cases fetch s with
        | none => exact ih _ _ _ _ hv hne
        | some j =>
            dsimp only
            cases mapperOf s j with
            | error e => exact ih _ _ _ _ hv hne
            | ok inc =>
                exact ih _ _ _ _
                  (merge_unified_get_nonempty _ _ _ _ hv hne) hne

theorem remoteLoop_isSome (fetch : RSource → Option PyVal) (maxS : Nat)
    (order : List RSource) :
    ∀ (tried : Nat) (u : PyDict) (k : String),
      (dictGet u k).isSome →
      (dictGet (remoteLoop fetch maxS order tried u) k).isSome := by
  induction order with
  | nil =>
      intro tried u k hv
      simpa [remoteLoop] using hv
  | cons s rest ih =>
      intro tried u k hv
      simp only [remoteLoop]
      by_cases hm : maxS ≤ tried
      · simpa [hm] using hv
      · simp only [if_neg hm]
        cases fetch s with
        | none => exact ih _ _ _ hv
        | some j =>
            dsimp only
            cases mapperOf s j with
            | error e => exact ih _ _ _ hv
            | ok inc => exact ih _ _ _ (merge_unified_isSome _ _ _ hv)

theorem remoteLoop_fetch_none {fetch : RSource → Option PyVal} {maxS : Nat}
    (hf : ∀ s, fetch s = Option.none) (order : List RSource) :
    ∀ (tried : Nat) (u : PyDict), remoteLoop fetch maxS order tried u = u := by
  induction order with
  | nil => intro tried u; simp [remoteLoop]
  | cons s rest ih =>
      intro tried u
      simp only [remoteLoop, hf s]
      by_cases hm : maxS ≤ tried
      · simp [hm]
      · simp [hm, ih]

theorem regionsFix_get_ne {u d : PyDict} (h : regionsFix u = Except.ok d)
    {k : String} (hk : k ≠ "regions") : dictGet d k = dictGet u k := by
  unfold regionsFix at h
  split at h
  · rw [← Except.ok.inj h]
  · dsimp only at h
    split at h
    · split at h
      · rw [← Except.ok.inj h]
        exact dictGet_dictSet_ne _ _ _ _ (Ne.symm hk)
      · cases h
    · rw [← Except.ok.inj h]
      exact dictGet_dictSet_ne _ _ _ _ (Ne.symm hk)

theorem regionsFix_regions_isSome {u d : PyDict}
    (h : regionsFix u = Except.ok d) : (dictGet d "regions").isSome := by
  unfold regionsFix at h
  split at h
  · next ht =>
      rw [← Except.ok.inj h]
      cases hg : dictGet u "regions" with
      | none => rw [dictGetD, hg] at ht; simp [pyTruthy] at ht
      | some v => simp [hg]
  · dsimp only at h
    split at h
    · split at h
      · rw [← Except.ok.inj h]
        simp [dictGet_dictSet_self]
      · cases h
    · rw [← Except.ok.inj h]
      simp [dictGet_dictSet_self]

theorem regionsFix_isSome {u d : PyDict} (h : regionsFix u = Except.ok d)
    (k : String) (hs : (dictGet u k).isSome) : (dictGet d k).isSome := by
  by_cases hk : k = "regions"
  · subst hk
    exact regionsFix_regions_isSome h
  · rw [regionsFix_get_ne h hk]
    exact hs

theorem joinStrs_all_str (sep : String) (vals : List PyVal)
    (h : ∀ v ∈ vals, ∃ s, v = PyVal.str s) :
    ∃ s, joinStrs sep vals = Except.ok s := by
  unfold joinStrs
  suffices hm : ∃ ss, strListOf vals = some ss by
    obtain ⟨ss, hss⟩ := hm
    rw [hss]
    exact ⟨_, rfl⟩
  induction vals with
  | nil => exact ⟨[], rfl⟩
  | cons v rest ih =>
      obtain ⟨s, rfl⟩ := h v (by simp)
      obtain ⟨ss, hss⟩ := ih (fun w hw => h w (by simp [hw]))
      exact ⟨s :: ss, by simp [strListOf, hss]⟩

theorem regionsFix_total {u : PyDict} (hp : StrAt u "province")
    (hc : StrAt u "city") : ∃ d, regionsFix u = Except.ok d := by
  unfold regionsFix
  split
  · exact ⟨u, rfl⟩
  · dsimp only
    split
    · have hall : ∀ v ∈ ([dictGetD u "province" (PyVal.str ""),
          dictGetD u "city" (PyVal.str "")].filter pyTruthy),
          ∃ s, v = PyVal.str s := by
        intro v hv
        have hv2 := List.mem_of_mem_filter hv
        simp only [List.mem_cons, List.mem_singleton] at hv2
        rcases hv2 with rfl | rfl | h0
        · unfold dictGetD
          cases hg : dictGet u "province" with
          | none => exact ⟨"", rfl⟩
          | some w => exact hp w hg
        · unfold dictGetD
          cases hg : dictGet u "city" with
          | none => exact ⟨"", rfl⟩
          | some w => exact hc w hg
        · cases h0
      obtain ⟨s, hs⟩ := joinStrs_all_str "," _ hall
      rw [hs]
      exact ⟨_, rfl⟩
    · exact ⟨_, rfl⟩

-- ------------------------------------------------------------------
-- Lemmas about the unified template and the remote pass
-- ------------------------------------------------------------------

theorem template_mem_isSome :
    ∀ k ∈ unifiedKeys, (dictGet unified_template k).isSome := by decide

theorem start_isSome (ip : String) :
    ∀ k ∈ unifiedKeys,
      (dictGet (dictSet unified_template "ip" (PyVal.str ip)) k).isSome :=
  fun k hk => dictGet_dictSet_isSome _ _ _ _ (template_mem_isSome k hk)

theorem start_get_ne (ip : String) (k : String) (h : k ≠ "ip") :
    dictGet (dictSet unified_template "ip" (PyVal.str ip)) k =
      dictGet unified_template k :=
  dictGet_dictSet_ne _ _ _ _ (Ne.symm h)

theorem start_ip (ip : String) :
    dictGet (dictSet unified_template "ip" (PyVal.str ip)) "ip" =
      some (PyVal.str ip) :=
  dictGet_dictSet_self _ _ _

theorem remote_ok_isSome {ip : String} {order : List RSource}
    {fetch : RSource → Option PyVal} {maxS : Nat} {r : PyDict}
    (h : get_ip_info_remote ip order fetch maxS = Except.ok r) :
    ∀ k ∈ unifiedKeys, (dictGet r k).isSome := by
  unfold get_ip_info_remote at h
  intro k hk
  exact regionsFix_isSome h k
    (remoteLoop_isSome fetch maxS order 0 _ k (start_isSome ip k hk))

theorem remote_ok_ip {ip : String} {order : List RSource}
    {fetch : RSource → Option PyVal} {maxS : Nat} {r : PyDict}
    (hne : ip ≠ "") (h : get_ip_info_remote ip order fetch maxS = Except.ok r) :
    dictGet r "ip" = some (PyVal.str ip) := by
  unfold get_ip_info_remote at h
  rw [regionsFix_get_ne h (by decide)]
  exact remoteLoop_get_nonempty fetch maxS order 0 _ "ip" _ (start_ip ip)
    (by simp [isEmptyVal, hne])

theorem remoteOrTemplate_isSome (env : Env) (ip : String) :
    ∀ k ∈ unifiedKeys, (dictGet (remoteOrTemplate env ip) k).isSome := by
  unfold remoteOrTemplate
  intro k hk
  cases h : get_ip_info_remote ip env.order env.fetch 3 with
  | ok r => exact remote_ok_isSome h k hk
  | error e => exact start_isSome ip k hk

theorem remoteOrTemplate_ip (env : Env) (ip : String) (hne : ip ≠ "") :
    dictGet (remoteOrTemplate env ip) "ip" = some (PyVal.str ip) := by
  unfold remoteOrTemplate
  cases h : get_ip_info_remote ip env.order env.fetch 3 with
  | ok r => exact remote_ok_ip hne h
  | error e => exact start_ip ip

-- ------------------------------------------------------------------
-- Claim C9
-- ------------------------------------------------------------------

/-- C9: for a non-empty input ip, the `ip` field of the remote aggregate
and of the final `get_ip_info` record equals the input exactly, whatever
any remote source reports: the accumulator's `ip` is set before polling
and the merge rule never overwrites a non-empty field. -/
theorem C9_input_ip_preserved (env : Env) (ip : String) (hne : ip ≠ "") :
    (∀ maxS r, get_ip_info_remote ip env.order env.fetch maxS = Except.ok r →
      dictGet r "ip" = some (PyVal.str ip)) ∧
    (∀ d, get_ip_info env ip = Except.ok d →
      dictGet d "ip" = some (PyVal.str ip)) := by
  constructor
  · intro maxS r h
    exact remote_ok_ip hne h
  · intro d h
    unfold get_ip_info at h
    dsimp only at h
    rw [regionsFix_get_ne h (by decide)]
    exact merge_unified_get_nonempty _ _ _ _ (remoteOrTemplate_ip env ip hne)
      (by simp [isEmptyVal, hne])

/-- Witness for C9: the polled source reports ip 1.1.1.1, yet the record
keeps the queried 8.8.8.8. -/
theorem C9_input_ip_preserved_witness :
    exceptField (get_ip_info envC9 "8.8.8.8") "ip" =
      some (PyVal.str "8.8.8.8") := by
  have h := (C9_input_ip_preserved envC9 "8.8.8.8" (by decide)).2
  have hok : get_ip_info envC9 "8.8.8.8" =
      Except.ok ((get_ip_info envC9 "8.8.8.8").toOption.getD []) := by rfl
  rw [hok]
  dsimp only [exceptField]
  exact h _ hok

-- ------------------------------------------------------------------
-- Claim C1 (corrected)
-- ------------------------------------------------------------------

/-- C1 counterexample: a remote source answering `"timezone": null` leaves
an explicit `None` in the final record (the local pipeline never produces
a `timezone`, and the merge rule happily writes `None` over the empty
template value), so a field can be `None` rather than the empty string. -/
theorem C1_none_survives_counterexample :
    exceptField (get_ip_info envC1 "1.2.3.4") "timezone" = some PyVal.null ∧
    some PyVal.null ≠ some (PyVal.str "") := by
  constructor
  · rfl
  · simp

/-- C1 (amended): every field of the unified schema is present as a key in
the record returned by `get_ip_info` — a field no source populated is the
empty string, but a remote-supplied JSON `null` can stand where the claim
promised only strings. -/
theorem C1_all_fields_present (env : Env) (ip : String) (d : PyDict)
    (h : get_ip_info env ip = Except.ok d) :
    ∀ k ∈ unifiedKeys, (dictGet d k).isSome := by
  unfold get_ip_info at h
  dsimp only at h
  intro k hk
  exact regionsFix_isSome h k
    (merge_unified_isSome _ _ _ (remoteOrTemplate_isSome env ip k hk))

/-- Witness for C1's amended theorem at a concrete environment. -/
theorem C1_all_fields_present_witness :
    exceptField (get_ip_info envC1 "1.2.3.4") "isp" = some (PyVal.str "") ∧
    (dictGet ((get_ip_info envC1 "1.2.3.4").toOption.getD []) "isp").isSome := by
  refine ⟨by rfl, ?_⟩
  have hok : get_ip_info envC1 "1.2.3.4" =
      Except.ok ((get_ip_info envC1 "1.2.3.4").toOption.getD []) := by rfl
  exact C1_all_fields_present envC1 "1.2.3.4" _ hok "isp" (by decide)

-- ------------------------------------------------------------------
-- Claim C10
-- ------------------------------------------------------------------

theorem template_mem_val :
    ∀ k ∈ unifiedKeys, dictGet unified_template k = some (PyVal.str "") := by
  intro k hk
  simp only [unifiedKeys, unified_template, List.map_cons, List.map_nil,
    List.mem_cons, List.not_mem_nil, or_false] at hk
  rcases hk with rfl|rfl|rfl|rfl|rfl|rfl|rfl|rfl|rfl|rfl|rfl|rfl|rfl|rfl|rfl|rfl|rfl <;>
    rfl

theorem get_ip_info_local_shape {asnL : Option AsnInfo}
    {cityL : Option CityInfo × Nat} {cnL : Option CnInfo × Nat}
    {ip : String} {ld : PyDict}
    (h : get_ip_info_local asnL cityL cnL ip = Except.ok ld) :
    ∃ info, build_uniform_result info = Except.ok ld := by
  unfold get_ip_info_local at h
  cases hmm : get_maxmind asnL cityL ip with
  | error e => rw [hmm] at h; cases h
  | ok info =>
      rw [hmm] at h
      dsimp only at h
      cases hcond : condCN info with
      | error e => rw [hcond] at h; cases h
      | ok cond =>
          rw [hcond] at h
          dsimp only at h
          exact ⟨_, h⟩

/-- The merged record's `timezone` and `isp` come from the remote pass
alone: the local dict has no such keys, so the merge leaves them be. -/
theorem get_ip_info_tz_isp_from_remote (env : Env) (ip : String)
    (d : PyDict) (h : get_ip_info env ip = Except.ok d) (k : String)
    (hk : k = "timezone" ∨ k = "isp") :
    dictGet d k = dictGet (remoteOrTemplate env ip) k := by
  unfold get_ip_info at h
  dsimp only at h
  have hreg : k ≠ "regions" := by rcases hk with rfl | rfl <;> decide
  rw [regionsFix_get_ne h hreg]
  cases hloc : get_ip_info_local env.asnL env.cityL env.cnL ip with
  | ok ld =>
      dsimp only
      apply merge_unified_get_not_mem
      obtain ⟨info, hb⟩ := get_ip_info_local_shape hloc
      rw [build_uniform_keys hb]
      rcases hk with rfl | rfl <;> decide
  | error e =>
      dsimp only
      apply merge_unified_get_not_mem
      simp

/-- `regionsFix` on the fresh template-with-ip accumulator: regions is
falsy and province/city are empty, so the empty string is stored. -/
theorem regionsFix_start (ip : String) :
    regionsFix (dictSet unified_template "ip" (PyVal.str ip)) =
      Except.ok (dictSet (dictSet unified_template "ip" (PyVal.str ip))
        "regions" (PyVal.str "")) := by
  have h1 : dictGetD (dictSet unified_template "ip" (PyVal.str ip))
      "regions" PyVal.null = PyVal.str "" := by
    unfold dictGetD
    rw [start_get_ne ip "regions" (by decide)]
    rfl
  have h2 : dictGetD (dictSet unified_template "ip" (PyVal.str ip))
      "province" (PyVal.str "") = PyVal.str "" := by
    unfold dictGetD
    rw [start_get_ne ip "province" (by decide)]
    rfl
  have h3 : dictGetD (dictSet unified_template "ip" (PyVal.str ip))
      "city" (PyVal.str "") = PyVal.str "" := by
    unfold dictGetD
    rw [start_get_ne ip "city" (by decide)]
    rfl
  unfold regionsFix
  rw [h1]
  simp [pyTruthy, h2, h3]

/-- With every remote source failing, the remote pass returns the
template with only ip set and the empty regions string. -/
theorem remoteOrTemplate_all_fail (env : Env) (ip : String)
    (hf : ∀ s, env.fetch s = Option.none) :
    remoteOrTemplate env ip =
      dictSet (dictSet unified_template "ip" (PyVal.str ip))
        "regions" (PyVal.str "") := by
  have hg : get_ip_info_remote ip env.order env.fetch 3 =
      Except.ok (dictSet (dictSet unified_template "ip" (PyVal.str ip))
        "regions" (PyVal.str "")) := by
    unfold get_ip_info_remote
    dsimp only
    rw [remoteLoop_fetch_none hf]
    exact regionsFix_start ip
  unfold remoteOrTemplate
  rw [hg]

/-- C10: the local-only pipeline produces no `timezone` and no `isp` key
at all; consequently these two fields of the `get_ip_info` record come
from the remote pass alone, and are the empty string when no remote
source contributed them. -/
theorem C10_timezone_isp_remote_only :
    (∀ info r, build_uniform_result info = Except.ok r →
      dictGet r "timezone" = Option.none ∧ dictGet r "isp" = Option.none) ∧
    (∀ env ip d, get_ip_info env ip = Except.ok d →
      dictGet d "timezone" = dictGet (remoteOrTemplate env ip) "timezone" ∧
      dictGet d "isp" = dictGet (remoteOrTemplate env ip) "isp") ∧
    (∀ env ip d, (∀ s, env.fetch s = Option.none) →
      get_ip_info env ip = Except.ok d →
      dictGet d "timezone" = some (PyVal.str "") ∧
      dictGet d "isp" = some (PyVal.str "")) := by
  refine ⟨fun info r h => build_uniform_no_timezone_isp h,
    fun env ip d h => ⟨get_ip_info_tz_isp_from_remote env ip d h _ (Or.inl rfl),
      get_ip_info_tz_isp_from_remote env ip d h _ (Or.inr rfl)⟩, ?_⟩
  intro env ip d hf h
  have hval : ∀ k, k = "timezone" ∨ k = "isp" →
      dictGet (remoteOrTemplate env ip) k = some (PyVal.str "") := by
    intro k hk
    rw [remoteOrTemplate_all_fail env ip hf,
      dictGet_dictSet_ne _ _ _ _ (by rcases hk with rfl | rfl <;> decide),
      start_get_ne ip k (by rcases hk with rfl | rfl <;> decide)]
    rcases hk with rfl | rfl <;> rfl
  constructor
  · rw [get_ip_info_tz_isp_from_remote env ip d h _ (Or.inl rfl)]
    exact hval _ (Or.inl rfl)
  · rw [get_ip_info_tz_isp_from_remote env ip d h _ (Or.inr rfl)]
    exact hval _ (Or.inr rfl)

/-- Witness for C10: with every source down, the returned record has empty
timezone and isp, and the local record for the same lookups carries no
timezone key. -/
theorem C10_timezone_isp_remote_only_witness :
    exceptField (get_ip_info envC10 "1.2.3.4") "timezone" =
      some (PyVal.str "") ∧
    exceptField (get_ip_info_local envC10.asnL envC10.cityL envC10.cnL
      "1.2.3.4") "timezone" = Option.none := by
  constructor
  · have hok : get_ip_info envC10 "1.2.3.4" =
        Except.ok ((get_ip_info envC10 "1.2.3.4").toOption.getD []) := by rfl
    rw [hok]
    dsimp only [exceptField]
    exact (C10_timezone_isp_remote_only.2.2 envC10 "1.2.3.4" _
      (fun s => rfl) hok).1
  · have hok : get_ip_info_local envC10.asnL envC10.cityL envC10.cnL
        "1.2.3.4" = Except.ok ((get_ip_info_local envC10.asnL envC10.cityL
          envC10.cnL "1.2.3.4").toOption.getD []) := by rfl
    rw [hok]
    dsimp only [exceptField]
    obtain ⟨info, hb⟩ := get_ip_info_local_shape hok
    exact (C10_timezone_isp_remote_only.1 info _ hb).1

-- ------------------------------------------------------------------
-- Claim C3
-- ------------------------------------------------------------------

theorem uniformKeys_sub_unified :
    ∀ k ∈ uniformKeys, k ∈ unifiedKeys := by decide

theorem uniformKeys_nodup : uniformKeys.Nodup := by decide

/-- C3: when the remote aggregation pass raises, `get_ip_info` does not
propagate the exception: the remote record is the all-empty template with
only `ip` set, the local pipeline still runs, and a fully-shaped record is
returned in which every field the local pipeline produced (other than
`ip`/`regions`, which have their own rules) appears verbatim. -/
theorem C3_remote_failure_isolated (env : Env) (ip : String)
    (hrem : get_ip_info_remote ip env.order env.fetch 3 = Except.error ())
    (ld : PyDict)
    (hld : get_ip_info_local env.asnL env.cityL env.cnL ip = Except.ok ld) :
    ∃ d, get_ip_info env ip = Except.ok d ∧
      (∀ k ∈ unifiedKeys, (dictGet d k).isSome) ∧
      (∀ k v, k ≠ "ip" → k ≠ "regions" → dictGet ld k = some v →
        dictGet d k = some v) := by
  have hrt : remoteOrTemplate env ip =
      dictSet unified_template "ip" (PyVal.str ip) := by
    unfold remoteOrTemplate
    rw [hrem]
  obtain ⟨info, hb⟩ := get_ip_info_local_shape hld
  have hkeys : ld.map Prod.fst = uniformKeys := build_uniform_keys hb
  have hnodup : (ld.map Prod.fst).Nodup := by
    rw [hkeys]; exact uniformKeys_nodup
  -- value of the merged dict at any key of ld other than ip
  have hmerge : ∀ k v, k ≠ "ip" → dictGet ld k = some v →
      dictGet (merge_unified (dictSet unified_template "ip" (PyVal.str ip))
        ld) k = some v := by
    intro k v hkip hv
    have hmem : k ∈ uniformKeys := by
      rw [← hkeys]
      by_contra hno
      rw [(dictGet_eq_none_iff ld k).2 hno] at hv
      cases hv
    have hbase : dictGet (dictSet unified_template "ip" (PyVal.str ip)) k =
        some (PyVal.str "") := by
      rw [start_get_ne ip k hkip]
      exact template_mem_val k (uniformKeys_sub_unified k hmem)
    rw [merge_unified_lookup _ _ hnodup k, hv, hbase]
    simp [isEmptyVal]
  -- the merged province/city are strings, so the final fallback cannot raise
  obtain ⟨sp, hsp⟩ := get_ip_info_local_StrAt hld "province" (Or.inl rfl)
  obtain ⟨sc, hsc⟩ := get_ip_info_local_StrAt hld "city" (Or.inr rfl)
  have hstrp : StrAt (merge_unified (dictSet unified_template "ip"
      (PyVal.str ip)) ld) "province" := by
    intro v hv
    rw [hmerge _ _ (by decide) hsp] at hv
    exact ⟨sp, (Option.some.inj hv).symm⟩
  have hstrc : StrAt (merge_unified (dictSet unified_template "ip"
      (PyVal.str ip)) ld) "city" := by
    intro v hv
    rw [hmerge _ _ (by decide) hsc] at hv
    exact ⟨sc, (Option.some.inj hv).symm⟩
  obtain ⟨d, hd⟩ := regionsFix_total hstrp hstrc
  refine ⟨d, ?_, ?_, ?_⟩
  · unfold get_ip_info
    dsimp only
    rw [hld]
    dsimp only
    rw [hrt]
    exact hd
  · intro k hk
    exact regionsFix_isSome hd k (merge_unified_isSome _ _ _
      (by rw [← hrt] at *; exact remoteOrTemplate_isSome env ip k hk))
  · intro k v hkip hkreg hv
    rw [regionsFix_get_ne hd hkreg]
    exact hmerge k v hkip hv

/-- Witness for C3: the single source's malformed answer makes the remote
pass raise; the returned record still carries the locally computed network
prefix and has a full set of keys. -/
theorem C3_remote_failure_isolated_witness :
    exceptField (get_ip_info envC3 "9.9.9.9") "addr" =
      some (PyVal.str "9.0.0.0/8") ∧
    (exceptField (get_ip_info envC3 "9.9.9.9") "country_code").isSome := by
  obtain ⟨d, hd, hpres, hcarry⟩ := C3_remote_failure_isolated envC3 "9.9.9.9"
    (by rfl) _ (by rfl)
  constructor
  · rw [hd]
    dsimp only [exceptField]
    exact hcarry "addr" (PyVal.str "9.0.0.0/8") (by decide) (by decide)
      (by rfl)
  · rw [hd]
    dsimp only [exceptField]
    exact hpres "country_code" (by decide)

-- ------------------------------------------------------------------
-- Claim C4 (corrected)
-- ------------------------------------------------------------------

theorem withNet_get_ne (cn : CnInfo) (x : PyDict) (k : String)
    (hk : k ≠ "type") : dictGet (withNet cn x) k = dictGet x k := by
  unfold withNet
  cases cn.net with
  | none => rfl
  | some t =>
      dsimp only
      by_cases ht : t ≠ ""
      · rw [if_pos ht]
        exact dictGet_dictSet_ne _ _ _ _ (Ne.symm hk)
      · rw [if_neg ht]

/-- C4 counterexample: `get_cn` on a record whose ASN step attached the
label 阿里云 and an override record carrying the ISP 中国电信 replaces the
label — the override does not respect an existing operator label. -/
theorem C4_override_counterexample :
    asInfoOf (get_cn (some cnC4, 16) "1.2.3.4" infoC4) =
      some (PyVal.str "中国电信") ∧
    asInfoOf (Except.ok infoC4) = some (PyVal.str "阿里云") ∧
    ("中国电信" : String) ≠ "阿里云" := by
  refine ⟨by rfl, by rfl, by decide⟩

/-- C4 (amended): when the override record carries a truthy ISP label, the
label is written into `as.info` unconditionally, replacing whatever label
the ASN step attached. -/
theorem C4_override_isp_overwrites (cn : CnInfo) (plen : Nat) (ip : String)
    (info i : PyDict) (s : String)
    (h : get_cn (some cn, plen) ip info = Except.ok i)
    (hisp : cn.isp = some s) (hs : s ≠ "") :
    ∃ ad, dictGet i "as" = some (PyVal.dict ad) ∧
      dictGet ad "info" = some (PyVal.str s) := by
  unfold get_cn at h
  dsimp only at h
  cases hga : get_addr ip plen with
  | error e => rw [hga] at h; cases h
  | ok addr =>
      rw [hga] at h
      unfold cnIspBlock at h
      rw [hisp] at h
      dsimp only at h
      rw [if_pos hs] at h
      cases hga2 : dictGet (cnEnsureAs (cnRegionsBlock cn
          (dictSet info "addr" (PyVal.str addr)))) "as" with
      | none => rw [hga2] at h; cases h
      | some v =>
          rw [hga2] at h
          cases v with
          | dict ad =>
              refine ⟨dictSet ad "info" (PyVal.str s), ?_, ?_⟩
              · rw [← Except.ok.inj h,
                  withNet_get_ne _ _ _ (by decide), dictGet_dictSet_self]
              · rw [dictGet_dictSet_self]
          | str s2 => dsimp only at h; cases h
          | int n => dsimp only at h; cases h
          | null => dsimp only at h; cases h
          | list l => dsimp only at h; cases h

/-- Witness for the amended C4 at the concrete override record. -/
theorem C4_override_isp_overwrites_witness :
    asInfoOf (get_cn (some cnC4, 24) "1.2.3.4" infoC4) =
      some (PyVal.str "中国电信") := by
  have hok : get_cn (some cnC4, 24) "1.2.3.4" infoC4 =
      Except.ok ((get_cn (some cnC4, 24) "1.2.3.4" infoC4).toOption.getD [])
    := by rfl
  obtain ⟨ad, had, hinfo⟩ := C4_override_isp_overwrites cnC4 24 "1.2.3.4"
    infoC4 _ "中国电信" hok (by rfl) (by decide)
  rw [hok]
  dsimp only [asInfoOf]
  rw [had]
  exact hinfo

-- ------------------------------------------------------------------
-- Lookups through the `get_maxmind` construction
-- ------------------------------------------------------------------

theorem withAsn_get_ne {asnL : Option AsnInfo} {ret : PyDict} {k : String}
    (hk : k ≠ "as") : dictGet (withAsn asnL ret) k = dictGet ret k := by
  unfold withAsn
  cases asnL with
  | none => rfl
  | some a => exact dictGet_dictSet_ne _ _ _ _ (Ne.symm hk)

theorem withCityGeo_get_ne {c : CityInfo} {ret : PyDict} {k : String}
    (h1 : k ≠ "location") (h2 : k ≠ "country")
    (h3 : k ≠ "registered_country") :
    dictGet (withCityGeo c ret) k = dictGet ret k := by
  unfold withCityGeo
  rcases c.location with _ | loc <;> rcases c.country with _ | cr <;>
    rcases c.registered_country with _ | rr <;> dsimp only <;>
    (repeat first
      | rfl
      | rw [dictGet_dictSet_ne _ _ _ _ (Ne.symm h1)]
      | rw [dictGet_dictSet_ne _ _ _ _ (Ne.symm h2)]
      | rw [dictGet_dictSet_ne _ _ _ _ (Ne.symm h3)])

theorem provCityBlock_get_ne {dd : List String} {ret : PyDict} {k : String}
    (h1 : k ≠ "province") (h2 : k ≠ "city") :
    dictGet (provCityBlock dd ret) k = dictGet ret k := by
  unfold provCityBlock
  dsimp only
  by_cases hdd : dd.isEmpty = true
  · rw [if_pos hdd]
  · rw [if_neg hdd]
    by_cases hl : 1 < dd.length
    · rw [if_pos hl, dictGet_dictSet_ne _ _ _ _ (Ne.symm h2),
        dictGet_dictSet_ne _ _ _ _ (Ne.symm h1)]
    · rw [if_neg hl, dictGet_dictSet_ne _ _ _ _ (Ne.symm h1)]

theorem provCityBlock_province {dd : List String} {ret : PyDict}
    (hne : dd.isEmpty = false) :
    dictGet (provCityBlock dd ret) "province" =
      some (PyVal.str (dd.headD "")) := by
  unfold provCityBlock
  dsimp only
  rw [if_neg (by simp [hne])]
  by_cases hl : 1 < dd.length
  · rw [if_pos hl, dictGet_dictSet_ne _ _ _ _ (by decide),
      dictGet_dictSet_self]
  · rw [if_neg hl, dictGet_dictSet_self]

theorem provCityBlock_city_long {dd : List String} {ret : PyDict}
    (hl : 1 < dd.length) :
    dictGet (provCityBlock dd ret) "city" =
      some (PyVal.str (dd.getLastD "")) := by
  unfold provCityBlock
  dsimp only
  have hne : dd.isEmpty = false := by
    cases dd with
    | nil => simp at hl
    | cons a rest => rfl
  rw [if_neg (by simp [hne]), if_pos hl, dictGet_dictSet_self]

theorem provCityBlock_city_none {dd : List String} {ret : PyDict}
    (hl : ¬ 1 < dd.length) :
    dictGet (provCityBlock dd ret) "city" = dictGet ret "city" := by
  unfold provCityBlock
  dsimp only
  by_cases hdd : dd.isEmpty = true
  · rw [if_pos hdd]
  · rw [if_neg hdd, if_neg hl, dictGet_dictSet_ne _ _ _ _ (by decide)]

theorem withCityRegions_get_ne {c : CityInfo} {ret : PyDict} {k : String}
    (h1 : k ≠ "regions") (h2 : k ≠ "province") (h3 : k ≠ "city") :
    dictGet (withCityRegions c ret) k = dictGet ret k := by
  unfold withCityRegions
  dsimp only
  rw [provCityBlock_get_ne h2 h3, dictGet_dictSet_ne _ _ _ _ (Ne.symm h1)]

theorem get_maxmind_city_shape {asnL : Option AsnInfo} {c : CityInfo}
    {plen : Nat} {ip : String} {d : PyDict}
    (h : get_maxmind asnL (some c, plen) ip = Except.ok d) :
    ∃ addr, get_addr ip plen = Except.ok addr ∧
      d = withCityRegions c (withCityGeo c (dictSet (withAsn asnL
        [("ip", PyVal.str ip)]) "addr" (PyVal.str addr))) := by
  unfold get_maxmind at h
  dsimp only at h
  cases hga : get_addr ip plen with
  | error e => rw [hga] at h; cases h
  | ok addr =>
      rw [hga] at h
      dsimp only at h
      exact ⟨addr, rfl, (Except.ok.inj h).symm⟩

-- ------------------------------------------------------------------
-- Claim C5
-- ------------------------------------------------------------------

/-- C5: for a City record carrying a city name, `get_maxmind` appends the
localized city name to the subdivision list exactly when (the list is
empty or the city name is not a substring of its last entry) and the city
name is not a substring of the resolved country name; the stored region
list is the stable dedup of that list, its head becomes `province`, and
its last entry becomes `city` exactly when more than one element remains. -/
theorem C5_region_list_construction (asnL : Option AsnInfo) (c : CityInfo)
    (plen : Nat) (ip : String) (d : PyDict) (cm : NamedRec)
    (hcity : c.city = some cm)
    (h : get_maxmind asnL (some c, plen) ip = Except.ok d) :
    cityRegions c =
      (if ((c.subdivisions.map get_des).isEmpty ||
          !(strContainsSub ((c.subdivisions.map get_des).getLastD "")
            (get_des cm))) &&
          !(strContainsSub (cityCountryName c) (get_des cm)) then
        c.subdivisions.map get_des ++ [get_des cm]
      else c.subdivisions.map get_des) ∧
    dictGet d "regions" = some (PyVal.list
      ((de_duplicate (cityRegions c)).map PyVal.str)) ∧
    (de_duplicate (cityRegions c) ≠ [] →
      dictGet d "province" =
        some (PyVal.str ((de_duplicate (cityRegions c)).headD ""))) ∧
    (1 < (de_duplicate (cityRegions c)).length →
      dictGet d "city" =
        some (PyVal.str ((de_duplicate (cityRegions c)).getLastD ""))) ∧
    ((de_duplicate (cityRegions c)).length ≤ 1 →
      dictGet d "city" = Option.none) := by
  obtain ⟨addr, hga, rfl⟩ := get_maxmind_city_shape h
  have hdd : (if (cityRegions c).isEmpty then [] else
      de_duplicate (cityRegions c)) = de_duplicate (cityRegions c) := by
    by_cases hemp : (cityRegions c).isEmpty = true
    · rw [if_pos hemp, List.isEmpty_iff.mp hemp]
      rfl
    · rw [if_neg hemp]
  refine ⟨?_, ?_, ?_, ?_, ?_⟩
  · unfold cityRegions
    rw [hcity]
    rfl
  · unfold withCityRegions
    dsimp only
    rw [hdd, provCityBlock_get_ne (by decide) (by decide),
      dictGet_dictSet_self]
  · intro hne
    unfold withCityRegions
    dsimp only
    rw [hdd]
    exact provCityBlock_province (by simpa using hne)
  · intro hl
    unfold withCityRegions
    dsimp only
    rw [hdd]
    exact provCityBlock_city_long hl
  · intro hle
    unfold withCityRegions
    dsimp only
    rw [hdd, provCityBlock_city_none (by omega),
      dictGet_dictSet_ne _ _ _ _ (by decide),
      withCityGeo_get_ne (by decide) (by decide) (by decide),
      dictGet_dictSet_ne _ _ _ _ (by decide),
      withAsn_get_ne (by decide)]
    simp [dictGet]

/-- Witness for C5: one subdivision 广东 and city 深圳 in country 中国 give
regions 广东,深圳 with province 广东 and city 深圳. -/
theorem C5_region_list_construction_witness :
    exceptField (get_maxmind Option.none (some cityC5, 16) "1.2.3.4")
      "province" = some (PyVal.str "广东") ∧
    exceptField (get_maxmind Option.none (some cityC5, 16) "1.2.3.4")
      "city" = some (PyVal.str "深圳") := by
  have hok : get_maxmind Option.none (some cityC5, 16) "1.2.3.4" =
      Except.ok ((get_maxmind Option.none (some cityC5, 16)
        "1.2.3.4").toOption.getD []) := by rfl
  obtain ⟨h0, hreg, hprov, hcity2, hshort⟩ := C5_region_list_construction
    Option.none cityC5 16 "1.2.3.4" _ { names := [("zh-CN", "深圳")] }
    (by rfl) hok
  constructor
  · rw [hok]
    dsimp only [exceptField]
    rw [hprov (by decide)]
    rfl
  · rw [hok]
    dsimp only [exceptField]
    rw [hcity2 (by decide)]
    rfl

-- ------------------------------------------------------------------
-- Claim C7
-- ------------------------------------------------------------------

theorem lookup_mem {α β : Type} [BEq α] [LawfulBEq α]
    {l : List (α × β)} {k : α} {v : β} (h : l.lookup k = some v) :
    (k, v) ∈ l := by
  induction l with
  | nil => cases h
  | cons p rest ih =>
      simp only [List.lookup] at h
      cases hbeq : (k == p.1) with
      | true =>
          rw [hbeq] at h
          simp only [cond_true, Option.some.injEq] at h
          have hk : k = p.1 := eq_of_beq hbeq
          exact List.mem_cons.2 (Or.inl (by cases p; simp_all))
      | false =>
          rw [hbeq] at h
          exact List.mem_cons.2 (Or.inr (ih h))

theorem get_as_info_ne_empty {n : Int} {lbl : String}
    (h : get_as_info n = some lbl) : lbl ≠ "" := by
  have hmem : (n, lbl) ∈ asn_map := lookup_mem h
  have hall : ∀ p ∈ asn_map, p.2 ≠ "" := by decide
  exact hall _ hmem

theorem derive_isp_ne_empty {org lbl : String}
    (h : derive_isp_from_org org = some lbl) : lbl ≠ "" := by
  unfold derive_isp_from_org at h
  dsimp only at h
  repeat' split at h
  all_goals (cases h <;> decide)

theorem get_maxmind_as {a : AsnInfo} {cityL : Option CityInfo × Nat}
    {ip : String} {d : PyDict}
    (h : get_maxmind (some a) cityL ip = Except.ok d) :
    dictGet d "as" = some (PyVal.dict (asDataOf a)) := by
  unfold get_maxmind at h
  cases hga : get_addr ip cityL.2 with
  | error e => rw [hga] at h; cases h
  | ok addr =>
      rw [hga] at h
      cases hc : cityL.1 with
      | none =>
          rw [hc] at h
          rw [← Except.ok.inj h, dictGet_dictSet_ne _ _ _ _ (by decide)]
          unfold withAsn
          exact dictGet_dictSet_self _ _ _
      | some c =>
          rw [hc] at h
          rw [← Except.ok.inj h,
            withCityRegions_get_ne (by decide) (by decide) (by decide),
            withCityGeo_get_ne (by decide) (by decide) (by decide),
            dictGet_dictSet_ne _ _ _ _ (by decide)]
          unfold withAsn
          exact dictGet_dictSet_self _ _ _

theorem asDataOf_info_table {a : AsnInfo} {lbl : String}
    (ht : get_as_info a.autonomous_system_number = some lbl) :
    dictGet (asDataOf a) "info" = some (PyVal.str lbl) := by
  have hne : lbl ≠ "" := get_as_info_ne_empty ht
  unfold asDataOf
  dsimp only
  rw [ht]
  unfold pyOrOpt
  dsimp only
  rw [if_pos hne]
  dsimp only
  rw [if_pos hne]
  exact dictGet_dictSet_self _ _ _

theorem asDataOf_info_heuristic {a : AsnInfo} {lbl : String}
    (ht : get_as_info a.autonomous_system_number = Option.none)
    (hd : derive_isp_from_org a.autonomous_system_organization = some lbl) :
    dictGet (asDataOf a) "info" = some (PyVal.str lbl) := by
  have hne : lbl ≠ "" := derive_isp_ne_empty hd
  unfold asDataOf
  dsimp only
  rw [ht]
  unfold pyOrOpt
  dsimp only
  rw [hd]
  dsimp only
  rw [if_pos hne]
  exact dictGet_dictSet_self _ _ _

theorem asDataOf_info_none {a : AsnInfo}
    (ht : get_as_info a.autonomous_system_number = Option.none)
    (hd : derive_isp_from_org a.autonomous_system_organization =
      Option.none) :
    dictGet (asDataOf a) "info" = Option.none := by
  unfold asDataOf
  dsimp only
  rw [ht]
  unfold pyOrOpt
  dsimp only
  rw [hd]
  dsimp only
  simp [dictGet]

/-- C7: the operator label attached by the local pipeline comes from the
static ASN table whenever the table has an entry — even if the
organization-name heuristic would also match — and the heuristic is
consulted only when the table has no entry. -/
theorem C7_table_beats_heuristic (a : AsnInfo) (cityL : Option CityInfo × Nat)
    (ip : String) (d : PyDict)
    (h : get_maxmind (some a) cityL ip = Except.ok d) :
    dictGet d "as" = some (PyVal.dict (asDataOf a)) ∧
    (∀ lbl, get_as_info a.autonomous_system_number = some lbl →
      dictGet (asDataOf a) "info" = some (PyVal.str lbl)) ∧
    (get_as_info a.autonomous_system_number = Option.none →
      ∀ lbl, derive_isp_from_org a.autonomous_system_organization =
        some lbl → dictGet (asDataOf a) "info" = some (PyVal.str lbl)) ∧
    (get_as_info a.autonomous_system_number = Option.none →
      derive_isp_from_org a.autonomous_system_organization = Option.none →
      dictGet (asDataOf a) "info" = Option.none) :=
  ⟨get_maxmind_as h, fun _ ht => asDataOf_info_table ht,
    fun ht _ hd => asDataOf_info_heuristic ht hd,
    fun ht hd => asDataOf_info_none ht hd⟩

/-- Witness for C7: AS4134 with organization "Alibaba Cloud" — the
heuristic alone would say 阿里云, but the table's 中国电信 wins; with an
ASN missing from the table the heuristic's 阿里云 is used. -/
theorem C7_table_beats_heuristic_witness :
    asInfoOf (get_maxmind (some asnC7) (Option.none, 24) "1.2.3.4") =
      some (PyVal.str "中国电信") ∧
    derive_isp_from_org asnC7.autonomous_system_organization =
      some "阿里云" ∧
    asInfoOf (get_maxmind (some asnC7b) (Option.none, 24) "1.2.3.4") =
      some (PyVal.str "阿里云") := by
  have hok : get_maxmind (some asnC7) (Option.none, 24) "1.2.3.4" =
      Except.ok ((get_maxmind (some asnC7) (Option.none, 24)
        "1.2.3.4").toOption.getD []) := by rfl
  have hok2 : get_maxmind (some asnC7b) (Option.none, 24) "1.2.3.4" =
      Except.ok ((get_maxmind (some asnC7b) (Option.none, 24)
        "1.2.3.4").toOption.getD []) := by rfl
  obtain ⟨has, htab, hheu, hnone⟩ := C7_table_beats_heuristic asnC7
    (Option.none, 24) "1.2.3.4" _ hok
  obtain ⟨has2, htab2, hheu2, hnone2⟩ := C7_table_beats_heuristic asnC7b
    (Option.none, 24) "1.2.3.4" _ hok2
  refine ⟨?_, by rfl, ?_⟩
  · rw [hok]
    dsimp only [asInfoOf]
    rw [has]
    exact htab "中国电信" (by rfl)
  · rw [hok2]
    dsimp only [asInfoOf]
    rw [has2]
    exact hheu2 (by rfl) "阿里云" (by rfl)
